import Mathlib

/-!
Shallow embedding of the reclaim-tracking core of `src/reclaims.cpp`
(the Sierra Chart study "FatCat Reclaims").  Prices are modelled as
exact rationals, the C++ `int(...)` cast as truncation toward zero,
`SCDateTime` values as abstract `Int` timestamps, and the per-bar
state machine as pure functions on a `Reclaim` record and on
newest-first lists of such records.  Rendering calls (`DrawReclaim`,
`DrawReclaimEVText`, `DeleteReclaim`) have no effect on the tracked
state apart from the host-assigned line numbers, which enter here as
explicit parameters.
-/

/-- The C++ `int(x)` / `(int)x` cast applied to a real-valued
expression: truncation toward zero. -/
def fint (q : ℚ) : Int := if q < 0 then ⌈q⌉ else ⌊q⌋

/-- `Sign` (reclaims.cpp lines 164-172). -/
def Sign (value : ℚ) : Int :=
  if value > 0 then 1 else if value < 0 then -1 else 0

/-- The `Reclaim` struct (lines 46-159).  The field `Type` is renamed
`RType` because `Type` is reserved in Lean. -/
structure Reclaim where
  FixedSidePrice : ℚ
  ActiveSidePrice : ℚ
  EV : Int
  IncreaseEVOnNextTouch : Bool
  Swing : Int
  IncreaseSwingOnNextTouch : Bool
  MaxHeight : Int
  CurrentHeight : Int
  MaxRetracement : Int
  StartDate : Int
  RectLineNumber : Int
  EVTextLineNumber : Int
  Deleted : Bool
  RType : Int
  DecayStartTime : Int
  deriving Repr, DecidableEq, Inhabited

/-- The study inputs read by the tracking core: `sc.TickSize` and
`sc.Input[1]`, `sc.Input[10]`, `sc.Input[12]`, `sc.Input[13]`,
`sc.Input[21]`, under the names given to them in `scsf_Reclaims`
(lines 666-688). -/
structure Cfg where
  tick : ℚ
  NewReclaimThreshold : Int
  MinReclaimSize : Int
  LookForOppositeBarColor : Bool
  EVPullbackSize : Int
  SwingPullbackSize : Int
  deriving Repr, DecidableEq

/-- The chart bar arrays `sc.Open`, `sc.High`, `sc.Low`, `sc.Close`,
as functions of the bar index. -/
structure Bars where
  op : Int → ℚ
  hi : Int → ℚ
  lo : Int → ℚ
  cl : Int → ℚ

/-- The index-0 ("live" zone) branch of the up-reclaims loop of
`UpdateReclaims`, lines 472-500. -/
def updateUpZero (cfg : Cfg) (curHigh curLow curClose : ℚ) (barTime : Int)
    (r : Reclaim) : Reclaim :=
  let r1 := { r with ActiveSidePrice := curHigh }
  let r2 := { r1 with
    CurrentHeight := fint ((r1.ActiveSidePrice - r1.FixedSidePrice) / cfg.tick) }
  let newMaxHeight := fint ((curHigh - r2.FixedSidePrice) / cfg.tick)
  let r3 := if newMaxHeight > r2.MaxHeight then { r2 with MaxHeight := newMaxHeight } else r2
  let newMaxRetracement :=
    fint ((r3.FixedSidePrice + (r3.MaxHeight : ℚ) * cfg.tick - curClose) / cfg.tick)
  let r4 := if newMaxRetracement > r3.MaxRetracement then
      { r3 with MaxRetracement := newMaxRetracement } else r3
  if curLow ≤ r4.FixedSidePrice then
    { r4 with FixedSidePrice := curLow, ActiveSidePrice := curLow, StartDate := barTime,
              CurrentHeight := 0, MaxHeight := 0, MaxRetracement := 0 }
  else r4

/-- Lines 504-509: EV arming for a retired up zone — if not armed and
the bar high pulled at least `EVPullbackSize` ticks above the active
side, arm. -/
def upEVArm (cfg : Cfg) (checkPreviousBar : Bool) (curHigh : ℚ) (r : Reclaim) : Reclaim :=
  if checkPreviousBar = true ∧ r.IncreaseEVOnNextTouch = false ∧
      fint ((curHigh - r.ActiveSidePrice) / cfg.tick) ≥ cfg.EVPullbackSize then
    { r with IncreaseEVOnNextTouch := true }
  else r

/-- Lines 511-514: EV touch for a retired up zone — if armed and the
bar low touches the active side, count and disarm. -/
def upEVTouch (checkPreviousBar : Bool) (curLow : ℚ) (r : Reclaim) : Reclaim :=
  if checkPreviousBar = true ∧ r.IncreaseEVOnNextTouch = true ∧
      curLow ≤ r.ActiveSidePrice then
    { r with EV := r.EV + 1, IncreaseEVOnNextTouch := false }
  else r

/-- Lines 517-522: swing arming for a retired up zone. -/
def upSwingArm (cfg : Cfg) (checkPreviousBar : Bool) (curHigh : ℚ) (r : Reclaim) : Reclaim :=
  if checkPreviousBar = true ∧ r.IncreaseSwingOnNextTouch = false ∧
      fint ((curHigh - r.ActiveSidePrice) / cfg.tick) ≥ cfg.SwingPullbackSize then
    { r with IncreaseSwingOnNextTouch := true }
  else r

/-- Lines 524-527: swing touch for a retired up zone. -/
def upSwingTouch (checkPreviousBar : Bool) (curLow : ℚ) (r : Reclaim) : Reclaim :=
  if checkPreviousBar = true ∧ r.IncreaseSwingOnNextTouch = true ∧
      curLow ≤ r.ActiveSidePrice then
    { r with Swing := r.Swing + 1, IncreaseSwingOnNextTouch := false }
  else r

/-- Lines 532-540: active-side update for a retired up zone, clamped
at the fixed side, stamping `DecayStartTime` when the recomputed
height is at most `MinReclaimSize`. -/
def upBound (cfg : Cfg) (curLow : ℚ) (now : Int) (r : Reclaim) : Reclaim :=
  if curLow < r.ActiveSidePrice then
    let a := max curLow r.FixedSidePrice
    let h := fint ((a - r.FixedSidePrice) / cfg.tick)
    let rb := { r with ActiveSidePrice := a, CurrentHeight := h }
    if h ≤ cfg.MinReclaimSize then { rb with DecayStartTime := now } else rb
  else r

/-- Lines 543-550: reclaimed check for a retired up zone. -/
def upDelete (curLow : ℚ) (r : Reclaim) : Reclaim :=
  if curLow ≤ r.FixedSidePrice ∨ r.ActiveSidePrice ≤ r.FixedSidePrice then
    { r with Deleted := true }
  else r

/-- The index ≥ 1 ("retired" zone) branch of the up-reclaims loop of
`UpdateReclaims`, lines 501-551, as the source's sequence of blocks:
EV scoring, swing scoring, the clamped active-side update with decay
stamping, then the reclaimed (deletion) check.  `now` is
`sc.CurrentSystemDateTime`. -/
def updateUpRetired (cfg : Cfg) (checkPreviousBar : Bool) (curHigh curLow : ℚ)
    (now : Int) (r : Reclaim) : Reclaim :=
  upDelete curLow (upBound cfg curLow now
    (upSwingTouch checkPreviousBar curLow (upSwingArm cfg checkPreviousBar curHigh
      (upEVTouch checkPreviousBar curLow (upEVArm cfg checkPreviousBar curHigh r)))))

/-- The index-0 branch of the down-reclaims loop of `UpdateReclaims`,
lines 566-595. -/
def updateDownZero (cfg : Cfg) (curHigh curLow curClose : ℚ) (barTime : Int)
    (r : Reclaim) : Reclaim :=
  let r1 := { r with ActiveSidePrice := curLow }
  let r2 := { r1 with
    CurrentHeight := fint ((r1.FixedSidePrice - r1.ActiveSidePrice) / cfg.tick) }
  let newMaxHeight := fint ((r2.FixedSidePrice - curLow) / cfg.tick)
  let r3 := if newMaxHeight > r2.MaxHeight then { r2 with MaxHeight := newMaxHeight } else r2
  let newMaxRetracement :=
    fint ((curClose - (r3.FixedSidePrice - (r3.MaxHeight : ℚ) * cfg.tick)) / cfg.tick)
  let r4 := if newMaxRetracement > r3.MaxRetracement then
      { r3 with MaxRetracement := newMaxRetracement } else r3
  if curHigh ≥ r4.FixedSidePrice then
    { r4 with FixedSidePrice := curHigh, ActiveSidePrice := curHigh, StartDate := barTime,
              CurrentHeight := 0, MaxHeight := 0, MaxRetracement := 0 }
  else r4

/-- Lines 599-604: EV arming for a retired down zone — the pullback is
measured from the active side down to the bar low. -/
def downEVArm (cfg : Cfg) (checkPreviousBar : Bool) (curLow : ℚ) (r : Reclaim) : Reclaim :=
  if checkPreviousBar = true ∧ r.IncreaseEVOnNextTouch = false ∧
      fint ((r.ActiveSidePrice - curLow) / cfg.tick) ≥ cfg.EVPullbackSize then
    { r with IncreaseEVOnNextTouch := true }
  else r

/-- Lines 606-609: EV touch for a retired down zone. -/
def downEVTouch (checkPreviousBar : Bool) (curHigh : ℚ) (r : Reclaim) : Reclaim :=
  if checkPreviousBar = true ∧ r.IncreaseEVOnNextTouch = true ∧
      curHigh ≥ r.ActiveSidePrice then
    { r with EV := r.EV + 1, IncreaseEVOnNextTouch := false }
  else r

/-- Lines 612-617: swing arming for a retired down zone. -/
def downSwingArm (cfg : Cfg) (checkPreviousBar : Bool) (curLow : ℚ) (r : Reclaim) : Reclaim :=
  if checkPreviousBar = true ∧ r.IncreaseSwingOnNextTouch = false ∧
      fint ((r.ActiveSidePrice - curLow) / cfg.tick) ≥ cfg.SwingPullbackSize then
    { r with IncreaseSwingOnNextTouch := true }
  else r

/-- Lines 619-622: swing touch for a retired down zone. -/
def downSwingTouch (checkPreviousBar : Bool) (curHigh : ℚ) (r : Reclaim) : Reclaim :=
  if checkPreviousBar = true ∧ r.IncreaseSwingOnNextTouch = true ∧
      curHigh ≥ r.ActiveSidePrice then
    { r with Swing := r.Swing + 1, IncreaseSwingOnNextTouch := false }
  else r

/-- Lines 624-632: active-side update for a retired down zone, clamped
at the fixed side. -/
def downBound (cfg : Cfg) (curHigh : ℚ) (now : Int) (r : Reclaim) : Reclaim :=
  if curHigh > r.ActiveSidePrice then
    let a := min curHigh r.FixedSidePrice
    let h := fint ((r.FixedSidePrice - a) / cfg.tick)
    let rb := { r with ActiveSidePrice := a, CurrentHeight := h }
    if h ≤ cfg.MinReclaimSize then { rb with DecayStartTime := now } else rb
  else r

/-- Lines 634-641: reclaimed check for a retired down zone. -/
def downDelete (curHigh : ℚ) (r : Reclaim) : Reclaim :=
  if curHigh ≥ r.FixedSidePrice ∨ r.ActiveSidePrice ≥ r.FixedSidePrice then
    { r with Deleted := true }
  else r

/-- The index ≥ 1 branch of the down-reclaims loop of `UpdateReclaims`,
lines 596-642, as the source's sequence of blocks. -/
def updateDownRetired (cfg : Cfg) (checkPreviousBar : Bool) (curHigh curLow : ℚ)
    (now : Int) (r : Reclaim) : Reclaim :=
  downDelete curHigh (downBound cfg curHigh now
    (downSwingTouch checkPreviousBar curHigh (downSwingArm cfg checkPreviousBar curLow
      (downEVTouch checkPreviousBar curHigh (downEVArm cfg checkPreviousBar curLow r)))))

/-- One pass of the up-reclaims loop of `UpdateReclaims` (lines 470-560)
over the whole newest-first history: slot 0 takes the live branch, all
later slots the retired branch. -/
def updateUpList (cfg : Cfg) (checkPreviousBar : Bool) (curHigh curLow curClose : ℚ)
    (barTime now : Int) : List Reclaim → List Reclaim
  | [] => []
  | z :: rest =>
      updateUpZero cfg curHigh curLow curClose barTime z ::
        rest.map (updateUpRetired cfg checkPreviousBar curHigh curLow now)

/-- One pass of the down-reclaims loop of `UpdateReclaims`
(lines 563-650) over the whole newest-first history. -/
def updateDownList (cfg : Cfg) (checkPreviousBar : Bool) (curHigh curLow curClose : ℚ)
    (barTime now : Int) : List Reclaim → List Reclaim
  | [] => []
  | z :: rest =>
      updateDownZero cfg curHigh curLow curClose barTime z ::
        rest.map (updateDownRetired cfg checkPreviousBar curHigh curLow now)

/-- The unrolled scan of `StartNewReclaimCheck` lines 225-231: the
first bar among indices `index-2`, `index-3`, `index-4` whose close
differs from its open, else the sentinel `0`. -/
def findNonDoji (bars : Bars) (index : Int) : Int :=
  if bars.cl (index - 2) - bars.op (index - 2) ≠ 0 then index - 2
  else if bars.cl (index - 3) - bars.op (index - 3) ≠ 0 then index - 3
  else if bars.cl (index - 4) - bars.op (index - 4) ≠ 0 then index - 4
  else 0

/-- `StartNewReclaimCheck` (lines 214-244). -/
def startNewReclaimCheck (cfg : Cfg) (bars : Bars) (index : Int) (r : Reclaim) : Bool :=
  if r.MaxRetracement < cfg.NewReclaimThreshold then false
  else if cfg.LookForOppositeBarColor = true then
    if bars.cl (index - 1) = bars.op (index - 1) then false
    else
      let nonDojiCandleIndex := findNonDoji bars index
      if nonDojiCandleIndex = 0 then true
      else if Sign (bars.cl (index - 1) - bars.op (index - 1)) =
              Sign (bars.cl nonDojiCandleIndex - bars.op nonDojiCandleIndex) then false
      else true
  else true

/-- The reset of the head slot performed after the shift on a new-zone
trigger (lines 917-932 resp. 951-965).  Fields not assigned there
(`RType`, `DecayStartTime`) keep the old head's values; the new
rectangle line number assigned by `DrawReclaim` is the parameter
`newLN`. -/
def resetHead (ltp : ℚ) (barTime newLN : Int) (old : Reclaim) : Reclaim :=
  { old with
    FixedSidePrice := ltp, ActiveSidePrice := ltp, StartDate := barTime,
    MaxHeight := 0, CurrentHeight := 0, MaxRetracement := 0, Deleted := false,
    EV := 0, IncreaseEVOnNextTouch := false, Swing := 0, IncreaseSwingOnNextTouch := false,
    EVTextLineNumber := -1, RectLineNumber := newLN }

/-- The shift-evict-insert performed on a new-zone trigger
(lines 908-932): the drawing of the last slot is removed, the loop
`for (i = N-1; i > 0; --i) a[i] = a[i-1]` shifts every slot one place
toward the tail (evicting the old last slot), and slot 0 is reset from
the current trade price `ltp`. -/
def rotate (ltp : ℚ) (barTime newLN : Int) (hist : List Reclaim) : List Reclaim :=
  resetHead ltp barTime newLN (hist.headD default) :: hist.dropLast

/-- Head-slot initialization on the first run (lines 831-834 resp.
867-870), on top of the per-slot defaults of lines 816-828: both
boundaries equal the first observed trade price.  (`DecayStartTime` is
left unassigned by the source; it is fixed to 0 here, no claim reads
it on a fresh head.) -/
def initHead (ltp : ℚ) (barTime ty : Int) : Reclaim :=
  { FixedSidePrice := ltp, ActiveSidePrice := ltp, EV := 0,
    IncreaseEVOnNextTouch := false, Swing := 0, IncreaseSwingOnNextTouch := false,
    MaxHeight := 0, CurrentHeight := 0, MaxRetracement := 0, StartDate := barTime,
    RectLineNumber := 0, EVTextLineNumber := -1, Deleted := false, RType := ty,
    DecayStartTime := 0 }

/-- The once-per-bar section of `scsf_Reclaims` restricted to the up
side (lines 891-936 together with the up half of the
`UpdateReclaims(sc, N, true)` call at line 972), in the
`UpdateOnBarClose = Yes` configuration, in which no tick-level pass
runs (line 885).  The down side (lines 939-969) is symmetric and
independent.  In that call `CurrentHigh`/`CurrentLow` are the previous
bar's extremes (lines 462-465) while `CurrentClose` is the current
bar's close (line 460).  Returns the trigger decision together with
the new up history. -/
def barStepUp (cfg : Cfg) (bars : Bars) (index : Int) (ltp : ℚ)
    (barTime now newLN : Int) (hist : List Reclaim) : Bool × List Reclaim :=
  if startNewReclaimCheck cfg bars index (hist.headD default) = true then
    (true, updateUpList cfg true (bars.hi (index - 1)) (bars.lo (index - 1))
      (bars.cl index) barTime now (rotate ltp barTime newLN hist))
  else
    (false, updateUpList cfg true (bars.hi (index - 1)) (bars.lo (index - 1))
      (bars.cl index) barTime now hist)

/-! ### Helper lemmas -/

theorem fint_eq_floor {q : ℚ} (h : 0 ≤ q) : fint q = ⌊q⌋ := by
  simp only [fint, not_lt.mpr h, if_false]

theorem le_fint {n : Int} {q : ℚ} (hn : 0 ≤ n) (h : (n : ℚ) ≤ q) : n ≤ fint q := by
  have hq : ¬ q < 0 := not_lt.mpr (le_trans (by exact_mod_cast hn) h)
  simp only [fint, hq, if_false]
  exact Int.le_floor.mpr h

/-! ### Per-block frame lemmas: each block of the retired-zone update
changes only its own fields.  Proved from the block definitions. -/

@[simp]
theorem upEVArm_FixedSidePrice (cfg : Cfg) (cp : Bool) (hi : ℚ) (r : Reclaim) :
    (upEVArm cfg cp hi r).FixedSidePrice = r.FixedSidePrice := by
  simp only [upEVArm]
  split_ifs <;> rfl

@[simp]
theorem upEVArm_ActiveSidePrice (cfg : Cfg) (cp : Bool) (hi : ℚ) (r : Reclaim) :
    (upEVArm cfg cp hi r).ActiveSidePrice = r.ActiveSidePrice := by
  simp only [upEVArm]
  split_ifs <;> rfl

@[simp]
theorem upEVArm_EV (cfg : Cfg) (cp : Bool) (hi : ℚ) (r : Reclaim) :
    (upEVArm cfg cp hi r).EV = r.EV := by
  simp only [upEVArm]
  split_ifs <;> rfl

@[simp]
theorem upEVArm_Swing (cfg : Cfg) (cp : Bool) (hi : ℚ) (r : Reclaim) :
    (upEVArm cfg cp hi r).Swing = r.Swing := by
  simp only [upEVArm]
  split_ifs <;> rfl

@[simp]
theorem upEVArm_IncreaseSwingOnNextTouch (cfg : Cfg) (cp : Bool) (hi : ℚ) (r : Reclaim) :
    (upEVArm cfg cp hi r).IncreaseSwingOnNextTouch = r.IncreaseSwingOnNextTouch := by
  simp only [upEVArm]
  split_ifs <;> rfl

@[simp]
theorem upEVArm_CurrentHeight (cfg : Cfg) (cp : Bool) (hi : ℚ) (r : Reclaim) :
    (upEVArm cfg cp hi r).CurrentHeight = r.CurrentHeight := by
  simp only [upEVArm]
  split_ifs <;> rfl

@[simp]
theorem upEVArm_MaxHeight (cfg : Cfg) (cp : Bool) (hi : ℚ) (r : Reclaim) :
    (upEVArm cfg cp hi r).MaxHeight = r.MaxHeight := by
  simp only [upEVArm]
  split_ifs <;> rfl

@[simp]
theorem upEVArm_MaxRetracement (cfg : Cfg) (cp : Bool) (hi : ℚ) (r : Reclaim) :
    (upEVArm cfg cp hi r).MaxRetracement = r.MaxRetracement := by
  simp only [upEVArm]
  split_ifs <;> rfl

@[simp]
theorem upEVArm_StartDate (cfg : Cfg) (cp : Bool) (hi : ℚ) (r : Reclaim) :
    (upEVArm cfg cp hi r).StartDate = r.StartDate := by
  simp only [upEVArm]
  split_ifs <;> rfl

@[simp]
theorem upEVArm_RectLineNumber (cfg : Cfg) (cp : Bool) (hi : ℚ) (r : Reclaim) :
    (upEVArm cfg cp hi r).RectLineNumber = r.RectLineNumber := by
  simp only [upEVArm]
  split_ifs <;> rfl

@[simp]
theorem upEVArm_EVTextLineNumber (cfg : Cfg) (cp : Bool) (hi : ℚ) (r : Reclaim) :
    (upEVArm cfg cp hi r).EVTextLineNumber = r.EVTextLineNumber := by
  simp only [upEVArm]
  split_ifs <;> rfl

@[simp]
theorem upEVArm_Deleted (cfg : Cfg) (cp : Bool) (hi : ℚ) (r : Reclaim) :
    (upEVArm cfg cp hi r).Deleted = r.Deleted := by
  simp only [upEVArm]
  split_ifs <;> rfl

@[simp]
theorem upEVArm_RType (cfg : Cfg) (cp : Bool) (hi : ℚ) (r : Reclaim) :
    (upEVArm cfg cp hi r).RType = r.RType := by
  simp only [upEVArm]
  split_ifs <;> rfl

@[simp]
theorem upEVArm_DecayStartTime (cfg : Cfg) (cp : Bool) (hi : ℚ) (r : Reclaim) :
    (upEVArm cfg cp hi r).DecayStartTime = r.DecayStartTime := by
  simp only [upEVArm]
  split_ifs <;> rfl

@[simp]
theorem upEVTouch_FixedSidePrice (cp : Bool) (lo : ℚ) (r : Reclaim) :
    (upEVTouch cp lo r).FixedSidePrice = r.FixedSidePrice := by
  simp only [upEVTouch]
  split_ifs <;> rfl

@[simp]
theorem upEVTouch_ActiveSidePrice (cp : Bool) (lo : ℚ) (r : Reclaim) :
    (upEVTouch cp lo r).ActiveSidePrice = r.ActiveSidePrice := by
  simp only [upEVTouch]
  split_ifs <;> rfl

@[simp]
theorem upEVTouch_Swing (cp : Bool) (lo : ℚ) (r : Reclaim) :
    (upEVTouch cp lo r).Swing = r.Swing := by
  simp only [upEVTouch]
  split_ifs <;> rfl

@[simp]
theorem upEVTouch_IncreaseSwingOnNextTouch (cp : Bool) (lo : ℚ) (r : Reclaim) :
    (upEVTouch cp lo r).IncreaseSwingOnNextTouch = r.IncreaseSwingOnNextTouch := by
  simp only [upEVTouch]
  split_ifs <;> rfl

@[simp]
theorem upEVTouch_CurrentHeight (cp : Bool) (lo : ℚ) (r : Reclaim) :
    (upEVTouch cp lo r).CurrentHeight = r.CurrentHeight := by
  simp only [upEVTouch]
  split_ifs <;> rfl

@[simp]
theorem upEVTouch_MaxHeight (cp : Bool) (lo : ℚ) (r : Reclaim) :
    (upEVTouch cp lo r).MaxHeight = r.MaxHeight := by
  simp only [upEVTouch]
  split_ifs <;> rfl

@[simp]
theorem upEVTouch_MaxRetracement (cp : Bool) (lo : ℚ) (r : Reclaim) :
    (upEVTouch cp lo r).MaxRetracement = r.MaxRetracement := by
  simp only [upEVTouch]
  split_ifs <;> rfl

@[simp]
theorem upEVTouch_StartDate (cp : Bool) (lo : ℚ) (r : Reclaim) :
    (upEVTouch cp lo r).StartDate = r.StartDate := by
  simp only [upEVTouch]
  split_ifs <;> rfl

@[simp]
theorem upEVTouch_RectLineNumber (cp : Bool) (lo : ℚ) (r : Reclaim) :
    (upEVTouch cp lo r).RectLineNumber = r.RectLineNumber := by
  simp only [upEVTouch]
  split_ifs <;> rfl

@[simp]
theorem upEVTouch_EVTextLineNumber (cp : Bool) (lo : ℚ) (r : Reclaim) :
    (upEVTouch cp lo r).EVTextLineNumber = r.EVTextLineNumber := by
  simp only [upEVTouch]
  split_ifs <;> rfl

@[simp]
theorem upEVTouch_Deleted (cp : Bool) (lo : ℚ) (r : Reclaim) :
    (upEVTouch cp lo r).Deleted = r.Deleted := by
  simp only [upEVTouch]
  split_ifs <;> rfl

@[simp]
theorem upEVTouch_RType (cp : Bool) (lo : ℚ) (r : Reclaim) :
    (upEVTouch cp lo r).RType = r.RType := by
  simp only [upEVTouch]
  split_ifs <;> rfl

@[simp]
theorem upEVTouch_DecayStartTime (cp : Bool) (lo : ℚ) (r : Reclaim) :
    (upEVTouch cp lo r).DecayStartTime = r.DecayStartTime := by
  simp only [upEVTouch]
  split_ifs <;> rfl

@[simp]
theorem upSwingArm_FixedSidePrice (cfg : Cfg) (cp : Bool) (hi : ℚ) (r : Reclaim) :
    (upSwingArm cfg cp hi r).FixedSidePrice = r.FixedSidePrice := by
  simp only [upSwingArm]
  split_ifs <;> rfl

@[simp]
theorem upSwingArm_ActiveSidePrice (cfg : Cfg) (cp : Bool) (hi : ℚ) (r : Reclaim) :
    (upSwingArm cfg cp hi r).ActiveSidePrice = r.ActiveSidePrice := by
  simp only [upSwingArm]
  split_ifs <;> rfl

@[simp]
theorem upSwingArm_EV (cfg : Cfg) (cp : Bool) (hi : ℚ) (r : Reclaim) :
    (upSwingArm cfg cp hi r).EV = r.EV := by
  simp only [upSwingArm]
  split_ifs <;> rfl

@[simp]
theorem upSwingArm_IncreaseEVOnNextTouch (cfg : Cfg) (cp : Bool) (hi : ℚ) (r : Reclaim) :
    (upSwingArm cfg cp hi r).IncreaseEVOnNextTouch = r.IncreaseEVOnNextTouch := by
  simp only [upSwingArm]
  split_ifs <;> rfl

@[simp]
theorem upSwingArm_Swing (cfg : Cfg) (cp : Bool) (hi : ℚ) (r : Reclaim) :
    (upSwingArm cfg cp hi r).Swing = r.Swing := by
  simp only [upSwingArm]
  split_ifs <;> rfl

@[simp]
theorem upSwingArm_CurrentHeight (cfg : Cfg) (cp : Bool) (hi : ℚ) (r : Reclaim) :
    (upSwingArm cfg cp hi r).CurrentHeight = r.CurrentHeight := by
  simp only [upSwingArm]
  split_ifs <;> rfl

@[simp]
theorem upSwingArm_MaxHeight (cfg : Cfg) (cp : Bool) (hi : ℚ) (r : Reclaim) :
    (upSwingArm cfg cp hi r).MaxHeight = r.MaxHeight := by
  simp only [upSwingArm]
  split_ifs <;> rfl

@[simp]
theorem upSwingArm_MaxRetracement (cfg : Cfg) (cp : Bool) (hi : ℚ) (r : Reclaim) :
    (upSwingArm cfg cp hi r).MaxRetracement = r.MaxRetracement := by
  simp only [upSwingArm]
  split_ifs <;> rfl

@[simp]
theorem upSwingArm_StartDate (cfg : Cfg) (cp : Bool) (hi : ℚ) (r : Reclaim) :
    (upSwingArm cfg cp hi r).StartDate = r.StartDate := by
  simp only [upSwingArm]
  split_ifs <;> rfl

@[simp]
theorem upSwingArm_RectLineNumber (cfg : Cfg) (cp : Bool) (hi : ℚ) (r : Reclaim) :
    (upSwingArm cfg cp hi r).RectLineNumber = r.RectLineNumber := by
  simp only [upSwingArm]
  split_ifs <;> rfl

@[simp]
theorem upSwingArm_EVTextLineNumber (cfg : Cfg) (cp : Bool) (hi : ℚ) (r : Reclaim) :
    (upSwingArm cfg cp hi r).EVTextLineNumber = r.EVTextLineNumber := by
  simp only [upSwingArm]
  split_ifs <;> rfl

@[simp]
theorem upSwingArm_Deleted (cfg : Cfg) (cp : Bool) (hi : ℚ) (r : Reclaim) :
    (upSwingArm cfg cp hi r).Deleted = r.Deleted := by
  simp only [upSwingArm]
  split_ifs <;> rfl

@[simp]
theorem upSwingArm_RType (cfg : Cfg) (cp : Bool) (hi : ℚ) (r : Reclaim) :
    (upSwingArm cfg cp hi r).RType = r.RType := by
  simp only [upSwingArm]
  split_ifs <;> rfl

@[simp]
theorem upSwingArm_DecayStartTime (cfg : Cfg) (cp : Bool) (hi : ℚ) (r : Reclaim) :
    (upSwingArm cfg cp hi r).DecayStartTime = r.DecayStartTime := by
  simp only [upSwingArm]
  split_ifs <;> rfl

@[simp]
theorem upSwingTouch_FixedSidePrice (cp : Bool) (lo : ℚ) (r : Reclaim) :
    (upSwingTouch cp lo r).FixedSidePrice = r.FixedSidePrice := by
  simp only [upSwingTouch]
  split_ifs <;> rfl

@[simp]
theorem upSwingTouch_ActiveSidePrice (cp : Bool) (lo : ℚ) (r : Reclaim) :
    (upSwingTouch cp lo r).ActiveSidePrice = r.ActiveSidePrice := by
  simp only [upSwingTouch]
  split_ifs <;> rfl

@[simp]
theorem upSwingTouch_EV (cp : Bool) (lo : ℚ) (r : Reclaim) :
    (upSwingTouch cp lo r).EV = r.EV := by
  simp only [upSwingTouch]
  split_ifs <;> rfl

@[simp]
theorem upSwingTouch_IncreaseEVOnNextTouch (cp : Bool) (lo : ℚ) (r : Reclaim) :
    (upSwingTouch cp lo r).IncreaseEVOnNextTouch = r.IncreaseEVOnNextTouch := by
  simp only [upSwingTouch]
  split_ifs <;> rfl

@[simp]
theorem upSwingTouch_CurrentHeight (cp : Bool) (lo : ℚ) (r : Reclaim) :
    (upSwingTouch cp lo r).CurrentHeight = r.CurrentHeight := by
  simp only [upSwingTouch]
  split_ifs <;> rfl

@[simp]
theorem upSwingTouch_MaxHeight (cp : Bool) (lo : ℚ) (r : Reclaim) :
    (upSwingTouch cp lo r).MaxHeight = r.MaxHeight := by
  simp only [upSwingTouch]
  split_ifs <;> rfl

@[simp]
theorem upSwingTouch_MaxRetracement (cp : Bool) (lo : ℚ) (r : Reclaim) :
    (upSwingTouch cp lo r).MaxRetracement = r.MaxRetracement := by
  simp only [upSwingTouch]
  split_ifs <;> rfl

@[simp]
theorem upSwingTouch_StartDate (cp : Bool) (lo : ℚ) (r : Reclaim) :
    (upSwingTouch cp lo r).StartDate = r.StartDate := by
  simp only [upSwingTouch]
  split_ifs <;> rfl

@[simp]
theorem upSwingTouch_RectLineNumber (cp : Bool) (lo : ℚ) (r : Reclaim) :
    (upSwingTouch cp lo r).RectLineNumber = r.RectLineNumber := by
  simp only [upSwingTouch]
  split_ifs <;> rfl

@[simp]
theorem upSwingTouch_EVTextLineNumber (cp : Bool) (lo : ℚ) (r : Reclaim) :
    (upSwingTouch cp lo r).EVTextLineNumber = r.EVTextLineNumber := by
  simp only [upSwingTouch]
  split_ifs <;> rfl

@[simp]
theorem upSwingTouch_Deleted (cp : Bool) (lo : ℚ) (r : Reclaim) :
    (upSwingTouch cp lo r).Deleted = r.Deleted := by
  simp only [upSwingTouch]
  split_ifs <;> rfl

@[simp]
theorem upSwingTouch_RType (cp : Bool) (lo : ℚ) (r : Reclaim) :
    (upSwingTouch cp lo r).RType = r.RType := by
  simp only [upSwingTouch]
  split_ifs <;> rfl

@[simp]
theorem upSwingTouch_DecayStartTime (cp : Bool) (lo : ℚ) (r : Reclaim) :
    (upSwingTouch cp lo r).DecayStartTime = r.DecayStartTime := by
  simp only [upSwingTouch]
  split_ifs <;> rfl

@[simp]
theorem upBound_FixedSidePrice (cfg : Cfg) (lo : ℚ) (now : Int) (r : Reclaim) :
    (upBound cfg lo now r).FixedSidePrice = r.FixedSidePrice := by
  simp only [upBound]
  split_ifs <;> rfl

@[simp]
theorem upBound_EV (cfg : Cfg) (lo : ℚ) (now : Int) (r : Reclaim) :
    (upBound cfg lo now r).EV = r.EV := by
  simp only [upBound]
  split_ifs <;> rfl

@[simp]
theorem upBound_IncreaseEVOnNextTouch (cfg : Cfg) (lo : ℚ) (now : Int) (r : Reclaim) :
    (upBound cfg lo now r).IncreaseEVOnNextTouch = r.IncreaseEVOnNextTouch := by
  simp only [upBound]
  split_ifs <;> rfl

@[simp]
theorem upBound_Swing (cfg : Cfg) (lo : ℚ) (now : Int) (r : Reclaim) :
    (upBound cfg lo now r).Swing = r.Swing := by
  simp only [upBound]
  split_ifs <;> rfl

@[simp]
theorem upBound_IncreaseSwingOnNextTouch (cfg : Cfg) (lo : ℚ) (now : Int) (r : Reclaim) :
    (upBound cfg lo now r).IncreaseSwingOnNextTouch = r.IncreaseSwingOnNextTouch := by
  simp only [upBound]
  split_ifs <;> rfl

@[simp]
theorem upBound_MaxHeight (cfg : Cfg) (lo : ℚ) (now : Int) (r : Reclaim) :
    (upBound cfg lo now r).MaxHeight = r.MaxHeight := by
  simp only [upBound]
  split_ifs <;> rfl

@[simp]
theorem upBound_MaxRetracement (cfg : Cfg) (lo : ℚ) (now : Int) (r : Reclaim) :
    (upBound cfg lo now r).MaxRetracement = r.MaxRetracement := by
  simp only [upBound]
  split_ifs <;> rfl

@[simp]
theorem upBound_StartDate (cfg : Cfg) (lo : ℚ) (now : Int) (r : Reclaim) :
    (upBound cfg lo now r).StartDate = r.StartDate := by
  simp only [upBound]
  split_ifs <;> rfl

@[simp]
theorem upBound_RectLineNumber (cfg : Cfg) (lo : ℚ) (now : Int) (r : Reclaim) :
    (upBound cfg lo now r).RectLineNumber = r.RectLineNumber := by
  simp only [upBound]
  split_ifs <;> rfl

@[simp]
theorem upBound_EVTextLineNumber (cfg : Cfg) (lo : ℚ) (now : Int) (r : Reclaim) :
    (upBound cfg lo now r).EVTextLineNumber = r.EVTextLineNumber := by
  simp only [upBound]
  split_ifs <;> rfl

@[simp]
theorem upBound_Deleted (cfg : Cfg) (lo : ℚ) (now : Int) (r : Reclaim) :
    (upBound cfg lo now r).Deleted = r.Deleted := by
  simp only [upBound]
  split_ifs <;> rfl

@[simp]
theorem upBound_RType (cfg : Cfg) (lo : ℚ) (now : Int) (r : Reclaim) :
    (upBound cfg lo now r).RType = r.RType := by
  simp only [upBound]
  split_ifs <;> rfl

@[simp]
theorem upDelete_FixedSidePrice (lo : ℚ) (r : Reclaim) :
    (upDelete lo r).FixedSidePrice = r.FixedSidePrice := by
  simp only [upDelete]
  split_ifs <;> rfl

@[simp]
theorem upDelete_ActiveSidePrice (lo : ℚ) (r : Reclaim) :
    (upDelete lo r).ActiveSidePrice = r.ActiveSidePrice := by
  simp only [upDelete]
  split_ifs <;> rfl

@[simp]
theorem upDelete_EV (lo : ℚ) (r : Reclaim) :
    (upDelete lo r).EV = r.EV := by
  simp only [upDelete]
  split_ifs <;> rfl

@[simp]
theorem upDelete_IncreaseEVOnNextTouch (lo : ℚ) (r : Reclaim) :
    (upDelete lo r).IncreaseEVOnNextTouch = r.IncreaseEVOnNextTouch := by
  simp only [upDelete]
  split_ifs <;> rfl

@[simp]
theorem upDelete_Swing (lo : ℚ) (r : Reclaim) :
    (upDelete lo r).Swing = r.Swing := by
  simp only [upDelete]
  split_ifs <;> rfl

@[simp]
theorem upDelete_IncreaseSwingOnNextTouch (lo : ℚ) (r : Reclaim) :
    (upDelete lo r).IncreaseSwingOnNextTouch = r.IncreaseSwingOnNextTouch := by
  simp only [upDelete]
  split_ifs <;> rfl

@[simp]
theorem upDelete_CurrentHeight (lo : ℚ) (r : Reclaim) :
    (upDelete lo r).CurrentHeight = r.CurrentHeight := by
  simp only [upDelete]
  split_ifs <;> rfl

@[simp]
theorem upDelete_MaxHeight (lo : ℚ) (r : Reclaim) :
    (upDelete lo r).MaxHeight = r.MaxHeight := by
  simp only [upDelete]
  split_ifs <;> rfl

@[simp]
theorem upDelete_MaxRetracement (lo : ℚ) (r : Reclaim) :
    (upDelete lo r).MaxRetracement = r.MaxRetracement := by
  simp only [upDelete]
  split_ifs <;> rfl

@[simp]
theorem upDelete_StartDate (lo : ℚ) (r : Reclaim) :
    (upDelete lo r).StartDate = r.StartDate := by
  simp only [upDelete]
  split_ifs <;> rfl

@[simp]
theorem upDelete_RectLineNumber (lo : ℚ) (r : Reclaim) :
    (upDelete lo r).RectLineNumber = r.RectLineNumber := by
  simp only [upDelete]
  split_ifs <;> rfl

@[simp]
theorem upDelete_EVTextLineNumber (lo : ℚ) (r : Reclaim) :
    (upDelete lo r).EVTextLineNumber = r.EVTextLineNumber := by
  simp only [upDelete]
  split_ifs <;> rfl

@[simp]
theorem upDelete_RType (lo : ℚ) (r : Reclaim) :
    (upDelete lo r).RType = r.RType := by
  simp only [upDelete]
  split_ifs <;> rfl

@[simp]
theorem upDelete_DecayStartTime (lo : ℚ) (r : Reclaim) :
    (upDelete lo r).DecayStartTime = r.DecayStartTime := by
  simp only [upDelete]
  split_ifs <;> rfl

@[simp]
theorem downEVArm_FixedSidePrice (cfg : Cfg) (cp : Bool) (lo : ℚ) (r : Reclaim) :
    (downEVArm cfg cp lo r).FixedSidePrice = r.FixedSidePrice := by
  simp only [downEVArm]
  split_ifs <;> rfl

@[simp]
theorem downEVArm_ActiveSidePrice (cfg : Cfg) (cp : Bool) (lo : ℚ) (r : Reclaim) :
    (downEVArm cfg cp lo r).ActiveSidePrice = r.ActiveSidePrice := by
  simp only [downEVArm]
  split_ifs <;> rfl

@[simp]
theorem downEVArm_EV (cfg : Cfg) (cp : Bool) (lo : ℚ) (r : Reclaim) :
    (downEVArm cfg cp lo r).EV = r.EV := by
  simp only [downEVArm]
  split_ifs <;> rfl

@[simp]
theorem downEVArm_Swing (cfg : Cfg) (cp : Bool) (lo : ℚ) (r : Reclaim) :
    (downEVArm cfg cp lo r).Swing = r.Swing := by
  simp only [downEVArm]
  split_ifs <;> rfl

@[simp]
theorem downEVArm_IncreaseSwingOnNextTouch (cfg : Cfg) (cp : Bool) (lo : ℚ) (r : Reclaim) :
    (downEVArm cfg cp lo r).IncreaseSwingOnNextTouch = r.IncreaseSwingOnNextTouch := by
  simp only [downEVArm]
  split_ifs <;> rfl

@[simp]
theorem downEVArm_CurrentHeight (cfg : Cfg) (cp : Bool) (lo : ℚ) (r : Reclaim) :
    (downEVArm cfg cp lo r).CurrentHeight = r.CurrentHeight := by
  simp only [downEVArm]
  split_ifs <;> rfl

@[simp]
theorem downEVArm_MaxHeight (cfg : Cfg) (cp : Bool) (lo : ℚ) (r : Reclaim) :
    (downEVArm cfg cp lo r).MaxHeight = r.MaxHeight := by
  simp only [downEVArm]
  split_ifs <;> rfl

@[simp]
theorem downEVArm_MaxRetracement (cfg : Cfg) (cp : Bool) (lo : ℚ) (r : Reclaim) :
    (downEVArm cfg cp lo r).MaxRetracement = r.MaxRetracement := by
  simp only [downEVArm]
  split_ifs <;> rfl

@[simp]
theorem downEVArm_StartDate (cfg : Cfg) (cp : Bool) (lo : ℚ) (r : Reclaim) :
    (downEVArm cfg cp lo r).StartDate = r.StartDate := by
  simp only [downEVArm]
  split_ifs <;> rfl

@[simp]
theorem downEVArm_RectLineNumber (cfg : Cfg) (cp : Bool) (lo : ℚ) (r : Reclaim) :
    (downEVArm cfg cp lo r).RectLineNumber = r.RectLineNumber := by
  simp only [downEVArm]
  split_ifs <;> rfl

@[simp]
theorem downEVArm_EVTextLineNumber (cfg : Cfg) (cp : Bool) (lo : ℚ) (r : Reclaim) :
    (downEVArm cfg cp lo r).EVTextLineNumber = r.EVTextLineNumber := by
  simp only [downEVArm]
  split_ifs <;> rfl

@[simp]
theorem downEVArm_Deleted (cfg : Cfg) (cp : Bool) (lo : ℚ) (r : Reclaim) :
    (downEVArm cfg cp lo r).Deleted = r.Deleted := by
  simp only [downEVArm]
  split_ifs <;> rfl

@[simp]
theorem downEVArm_RType (cfg : Cfg) (cp : Bool) (lo : ℚ) (r : Reclaim) :
    (downEVArm cfg cp lo r).RType = r.RType := by
  simp only [downEVArm]
  split_ifs <;> rfl

@[simp]
theorem downEVArm_DecayStartTime (cfg : Cfg) (cp : Bool) (lo : ℚ) (r : Reclaim) :
    (downEVArm cfg cp lo r).DecayStartTime = r.DecayStartTime := by
  simp only [downEVArm]
  split_ifs <;> rfl

@[simp]
theorem downEVTouch_FixedSidePrice (cp : Bool) (hi : ℚ) (r : Reclaim) :
    (downEVTouch cp hi r).FixedSidePrice = r.FixedSidePrice := by
  simp only [downEVTouch]
  split_ifs <;> rfl

@[simp]
theorem downEVTouch_ActiveSidePrice (cp : Bool) (hi : ℚ) (r : Reclaim) :
    (downEVTouch cp hi r).ActiveSidePrice = r.ActiveSidePrice := by
  simp only [downEVTouch]
  split_ifs <;> rfl

@[simp]
theorem downEVTouch_Swing (cp : Bool) (hi : ℚ) (r : Reclaim) :
    (downEVTouch cp hi r).Swing = r.Swing := by
  simp only [downEVTouch]
  split_ifs <;> rfl

@[simp]
theorem downEVTouch_IncreaseSwingOnNextTouch (cp : Bool) (hi : ℚ) (r : Reclaim) :
    (downEVTouch cp hi r).IncreaseSwingOnNextTouch = r.IncreaseSwingOnNextTouch := by
  simp only [downEVTouch]
  split_ifs <;> rfl

@[simp]
theorem downEVTouch_CurrentHeight (cp : Bool) (hi : ℚ) (r : Reclaim) :
    (downEVTouch cp hi r).CurrentHeight = r.CurrentHeight := by
  simp only [downEVTouch]
  split_ifs <;> rfl

@[simp]
theorem downEVTouch_MaxHeight (cp : Bool) (hi : ℚ) (r : Reclaim) :
    (downEVTouch cp hi r).MaxHeight = r.MaxHeight := by
  simp only [downEVTouch]
  split_ifs <;> rfl

@[simp]
theorem downEVTouch_MaxRetracement (cp : Bool) (hi : ℚ) (r : Reclaim) :
    (downEVTouch cp hi r).MaxRetracement = r.MaxRetracement := by
  simp only [downEVTouch]
  split_ifs <;> rfl

@[simp]
theorem downEVTouch_StartDate (cp : Bool) (hi : ℚ) (r : Reclaim) :
    (downEVTouch cp hi r).StartDate = r.StartDate := by
  simp only [downEVTouch]
  split_ifs <;> rfl

@[simp]
theorem downEVTouch_RectLineNumber (cp : Bool) (hi : ℚ) (r : Reclaim) :
    (downEVTouch cp hi r).RectLineNumber = r.RectLineNumber := by
  simp only [downEVTouch]
  split_ifs <;> rfl

@[simp]
theorem downEVTouch_EVTextLineNumber (cp : Bool) (hi : ℚ) (r : Reclaim) :
    (downEVTouch cp hi r).EVTextLineNumber = r.EVTextLineNumber := by
  simp only [downEVTouch]
  split_ifs <;> rfl

@[simp]
theorem downEVTouch_Deleted (cp : Bool) (hi : ℚ) (r : Reclaim) :
    (downEVTouch cp hi r).Deleted = r.Deleted := by
  simp only [downEVTouch]
  split_ifs <;> rfl

@[simp]
theorem downEVTouch_RType (cp : Bool) (hi : ℚ) (r : Reclaim) :
    (downEVTouch cp hi r).RType = r.RType := by
  simp only [downEVTouch]
  split_ifs <;> rfl

@[simp]
theorem downEVTouch_DecayStartTime (cp : Bool) (hi : ℚ) (r : Reclaim) :
    (downEVTouch cp hi r).DecayStartTime = r.DecayStartTime := by
  simp only [downEVTouch]
  split_ifs <;> rfl

@[simp]
theorem downSwingArm_FixedSidePrice (cfg : Cfg) (cp : Bool) (lo : ℚ) (r : Reclaim) :
    (downSwingArm cfg cp lo r).FixedSidePrice = r.FixedSidePrice := by
  simp only [downSwingArm]
  split_ifs <;> rfl

@[simp]
theorem downSwingArm_ActiveSidePrice (cfg : Cfg) (cp : Bool) (lo : ℚ) (r : Reclaim) :
    (downSwingArm cfg cp lo r).ActiveSidePrice = r.ActiveSidePrice := by
  simp only [downSwingArm]
  split_ifs <;> rfl

@[simp]
theorem downSwingArm_EV (cfg : Cfg) (cp : Bool) (lo : ℚ) (r : Reclaim) :
    (downSwingArm cfg cp lo r).EV = r.EV := by
  simp only [downSwingArm]
  split_ifs <;> rfl

@[simp]
theorem downSwingArm_IncreaseEVOnNextTouch (cfg : Cfg) (cp : Bool) (lo : ℚ) (r : Reclaim) :
    (downSwingArm cfg cp lo r).IncreaseEVOnNextTouch = r.IncreaseEVOnNextTouch := by
  simp only [downSwingArm]
  split_ifs <;> rfl

@[simp]
theorem downSwingArm_Swing (cfg : Cfg) (cp : Bool) (lo : ℚ) (r : Reclaim) :
    (downSwingArm cfg cp lo r).Swing = r.Swing := by
  simp only [downSwingArm]
  split_ifs <;> rfl

@[simp]
theorem downSwingArm_CurrentHeight (cfg : Cfg) (cp : Bool) (lo : ℚ) (r : Reclaim) :
    (downSwingArm cfg cp lo r).CurrentHeight = r.CurrentHeight := by
  simp only [downSwingArm]
  split_ifs <;> rfl

@[simp]
theorem downSwingArm_MaxHeight (cfg : Cfg) (cp : Bool) (lo : ℚ) (r : Reclaim) :
    (downSwingArm cfg cp lo r).MaxHeight = r.MaxHeight := by
  simp only [downSwingArm]
  split_ifs <;> rfl

@[simp]
theorem downSwingArm_MaxRetracement (cfg : Cfg) (cp : Bool) (lo : ℚ) (r : Reclaim) :
    (downSwingArm cfg cp lo r).MaxRetracement = r.MaxRetracement := by
  simp only [downSwingArm]
  split_ifs <;> rfl

@[simp]
theorem downSwingArm_StartDate (cfg : Cfg) (cp : Bool) (lo : ℚ) (r : Reclaim) :
    (downSwingArm cfg cp lo r).StartDate = r.StartDate := by
  simp only [downSwingArm]
  split_ifs <;> rfl

@[simp]
theorem downSwingArm_RectLineNumber (cfg : Cfg) (cp : Bool) (lo : ℚ) (r : Reclaim) :
    (downSwingArm cfg cp lo r).RectLineNumber = r.RectLineNumber := by
  simp only [downSwingArm]
  split_ifs <;> rfl

@[simp]
theorem downSwingArm_EVTextLineNumber (cfg : Cfg) (cp : Bool) (lo : ℚ) (r : Reclaim) :
    (downSwingArm cfg cp lo r).EVTextLineNumber = r.EVTextLineNumber := by
  simp only [downSwingArm]
  split_ifs <;> rfl

@[simp]
theorem downSwingArm_Deleted (cfg : Cfg) (cp : Bool) (lo : ℚ) (r : Reclaim) :
    (downSwingArm cfg cp lo r).Deleted = r.Deleted := by
  simp only [downSwingArm]
  split_ifs <;> rfl

@[simp]
theorem downSwingArm_RType (cfg : Cfg) (cp : Bool) (lo : ℚ) (r : Reclaim) :
    (downSwingArm cfg cp lo r).RType = r.RType := by
  simp only [downSwingArm]
  split_ifs <;> rfl

@[simp]
theorem downSwingArm_DecayStartTime (cfg : Cfg) (cp : Bool) (lo : ℚ) (r : Reclaim) :
    (downSwingArm cfg cp lo r).DecayStartTime = r.DecayStartTime := by
  simp only [downSwingArm]
  split_ifs <;> rfl

@[simp]
theorem downSwingTouch_FixedSidePrice (cp : Bool) (hi : ℚ) (r : Reclaim) :
    (downSwingTouch cp hi r).FixedSidePrice = r.FixedSidePrice := by
  simp only [downSwingTouch]
  split_ifs <;> rfl

@[simp]
theorem downSwingTouch_ActiveSidePrice (cp : Bool) (hi : ℚ) (r : Reclaim) :
    (downSwingTouch cp hi r).ActiveSidePrice = r.ActiveSidePrice := by
  simp only [downSwingTouch]
  split_ifs <;> rfl

@[simp]
theorem downSwingTouch_EV (cp : Bool) (hi : ℚ) (r : Reclaim) :
    (downSwingTouch cp hi r).EV = r.EV := by
  simp only [downSwingTouch]
  split_ifs <;> rfl

@[simp]
theorem downSwingTouch_IncreaseEVOnNextTouch (cp : Bool) (hi : ℚ) (r : Reclaim) :
    (downSwingTouch cp hi r).IncreaseEVOnNextTouch = r.IncreaseEVOnNextTouch := by
  simp only [downSwingTouch]
  split_ifs <;> rfl

@[simp]
theorem downSwingTouch_CurrentHeight (cp : Bool) (hi : ℚ) (r : Reclaim) :
    (downSwingTouch cp hi r).CurrentHeight = r.CurrentHeight := by
  simp only [downSwingTouch]
  split_ifs <;> rfl

@[simp]
theorem downSwingTouch_MaxHeight (cp : Bool) (hi : ℚ) (r : Reclaim) :
    (downSwingTouch cp hi r).MaxHeight = r.MaxHeight := by
  simp only [downSwingTouch]
  split_ifs <;> rfl

@[simp]
theorem downSwingTouch_MaxRetracement (cp : Bool) (hi : ℚ) (r : Reclaim) :
    (downSwingTouch cp hi r).MaxRetracement = r.MaxRetracement := by
  simp only [downSwingTouch]
  split_ifs <;> rfl

@[simp]
theorem downSwingTouch_StartDate (cp : Bool) (hi : ℚ) (r : Reclaim) :
    (downSwingTouch cp hi r).StartDate = r.StartDate := by
  simp only [downSwingTouch]
  split_ifs <;> rfl

@[simp]
theorem downSwingTouch_RectLineNumber (cp : Bool) (hi : ℚ) (r : Reclaim) :
    (downSwingTouch cp hi r).RectLineNumber = r.RectLineNumber := by
  simp only [downSwingTouch]
  split_ifs <;> rfl

@[simp]
theorem downSwingTouch_EVTextLineNumber (cp : Bool) (hi : ℚ) (r : Reclaim) :
    (downSwingTouch cp hi r).EVTextLineNumber = r.EVTextLineNumber := by
  simp only [downSwingTouch]
  split_ifs <;> rfl

@[simp]
theorem downSwingTouch_Deleted (cp : Bool) (hi : ℚ) (r : Reclaim) :
    (downSwingTouch cp hi r).Deleted = r.Deleted := by
  simp only [downSwingTouch]
  split_ifs <;> rfl

@[simp]
theorem downSwingTouch_RType (cp : Bool) (hi : ℚ) (r : Reclaim) :
    (downSwingTouch cp hi r).RType = r.RType := by
  simp only [downSwingTouch]
  split_ifs <;> rfl

@[simp]
theorem downSwingTouch_DecayStartTime (cp : Bool) (hi : ℚ) (r : Reclaim) :
    (downSwingTouch cp hi r).DecayStartTime = r.DecayStartTime := by
  simp only [downSwingTouch]
  split_ifs <;> rfl

@[simp]
theorem downBound_FixedSidePrice (cfg : Cfg) (hi : ℚ) (now : Int) (r : Reclaim) :
    (downBound cfg hi now r).FixedSidePrice = r.FixedSidePrice := by
  simp only [downBound]
  split_ifs <;> rfl

@[simp]
theorem downBound_EV (cfg : Cfg) (hi : ℚ) (now : Int) (r : Reclaim) :
    (downBound cfg hi now r).EV = r.EV := by
  simp only [downBound]
  split_ifs <;> rfl

@[simp]
theorem downBound_IncreaseEVOnNextTouch (cfg : Cfg) (hi : ℚ) (now : Int) (r : Reclaim) :
    (downBound cfg hi now r).IncreaseEVOnNextTouch = r.IncreaseEVOnNextTouch := by
  simp only [downBound]
  split_ifs <;> rfl

@[simp]
theorem downBound_Swing (cfg : Cfg) (hi : ℚ) (now : Int) (r : Reclaim) :
    (downBound cfg hi now r).Swing = r.Swing := by
  simp only [downBound]
  split_ifs <;> rfl

@[simp]
theorem downBound_IncreaseSwingOnNextTouch (cfg : Cfg) (hi : ℚ) (now : Int) (r : Reclaim) :
    (downBound cfg hi now r).IncreaseSwingOnNextTouch = r.IncreaseSwingOnNextTouch := by
  simp only [downBound]
  split_ifs <;> rfl

@[simp]
theorem downBound_MaxHeight (cfg : Cfg) (hi : ℚ) (now : Int) (r : Reclaim) :
    (downBound cfg hi now r).MaxHeight = r.MaxHeight := by
  simp only [downBound]
  split_ifs <;> rfl

@[simp]
theorem downBound_MaxRetracement (cfg : Cfg) (hi : ℚ) (now : Int) (r : Reclaim) :
    (downBound cfg hi now r).MaxRetracement = r.MaxRetracement := by
  simp only [downBound]
  split_ifs <;> rfl

@[simp]
theorem downBound_StartDate (cfg : Cfg) (hi : ℚ) (now : Int) (r : Reclaim) :
    (downBound cfg hi now r).StartDate = r.StartDate := by
  simp only [downBound]
  split_ifs <;> rfl

@[simp]
theorem downBound_RectLineNumber (cfg : Cfg) (hi : ℚ) (now : Int) (r : Reclaim) :
    (downBound cfg hi now r).RectLineNumber = r.RectLineNumber := by
  simp only [downBound]
  split_ifs <;> rfl

@[simp]
theorem downBound_EVTextLineNumber (cfg : Cfg) (hi : ℚ) (now : Int) (r : Reclaim) :
    (downBound cfg hi now r).EVTextLineNumber = r.EVTextLineNumber := by
  simp only [downBound]
  split_ifs <;> rfl

@[simp]
theorem downBound_Deleted (cfg : Cfg) (hi : ℚ) (now : Int) (r : Reclaim) :
    (downBound cfg hi now r).Deleted = r.Deleted := by
  simp only [downBound]
  split_ifs <;> rfl

@[simp]
theorem downBound_RType (cfg : Cfg) (hi : ℚ) (now : Int) (r : Reclaim) :
    (downBound cfg hi now r).RType = r.RType := by
  simp only [downBound]
  split_ifs <;> rfl

@[simp]
theorem downDelete_FixedSidePrice (hi : ℚ) (r : Reclaim) :
    (downDelete hi r).FixedSidePrice = r.FixedSidePrice := by
  simp only [downDelete]
  split_ifs <;> rfl

@[simp]
theorem downDelete_ActiveSidePrice (hi : ℚ) (r : Reclaim) :
    (downDelete hi r).ActiveSidePrice = r.ActiveSidePrice := by
  simp only [downDelete]
  split_ifs <;> rfl

@[simp]
theorem downDelete_EV (hi : ℚ) (r : Reclaim) :
    (downDelete hi r).EV = r.EV := by
  simp only [downDelete]
  split_ifs <;> rfl

@[simp]
theorem downDelete_IncreaseEVOnNextTouch (hi : ℚ) (r : Reclaim) :
    (downDelete hi r).IncreaseEVOnNextTouch = r.IncreaseEVOnNextTouch := by
  simp only [downDelete]
  split_ifs <;> rfl

@[simp]
theorem downDelete_Swing (hi : ℚ) (r : Reclaim) :
    (downDelete hi r).Swing = r.Swing := by
  simp only [downDelete]
  split_ifs <;> rfl

@[simp]
theorem downDelete_IncreaseSwingOnNextTouch (hi : ℚ) (r : Reclaim) :
    (downDelete hi r).IncreaseSwingOnNextTouch = r.IncreaseSwingOnNextTouch := by
  simp only [downDelete]
  split_ifs <;> rfl

@[simp]
theorem downDelete_CurrentHeight (hi : ℚ) (r : Reclaim) :
    (downDelete hi r).CurrentHeight = r.CurrentHeight := by
  simp only [downDelete]
  split_ifs <;> rfl

@[simp]
theorem downDelete_MaxHeight (hi : ℚ) (r : Reclaim) :
    (downDelete hi r).MaxHeight = r.MaxHeight := by
  simp only [downDelete]
  split_ifs <;> rfl

@[simp]
theorem downDelete_MaxRetracement (hi : ℚ) (r : Reclaim) :
    (downDelete hi r).MaxRetracement = r.MaxRetracement := by
  simp only [downDelete]
  split_ifs <;> rfl

@[simp]
theorem downDelete_StartDate (hi : ℚ) (r : Reclaim) :
    (downDelete hi r).StartDate = r.StartDate := by
  simp only [downDelete]
  split_ifs <;> rfl

@[simp]
theorem downDelete_RectLineNumber (hi : ℚ) (r : Reclaim) :
    (downDelete hi r).RectLineNumber = r.RectLineNumber := by
  simp only [downDelete]
  split_ifs <;> rfl

@[simp]
theorem downDelete_EVTextLineNumber (hi : ℚ) (r : Reclaim) :
    (downDelete hi r).EVTextLineNumber = r.EVTextLineNumber := by
  simp only [downDelete]
  split_ifs <;> rfl

@[simp]
theorem downDelete_RType (hi : ℚ) (r : Reclaim) :
    (downDelete hi r).RType = r.RType := by
  simp only [downDelete]
  split_ifs <;> rfl

@[simp]
theorem downDelete_DecayStartTime (hi : ℚ) (r : Reclaim) :
    (downDelete hi r).DecayStartTime = r.DecayStartTime := by
  simp only [downDelete]
  split_ifs <;> rfl

/-- The active side after the up boundary block. -/
theorem upBound_active (cfg : Cfg) (lo : ℚ) (now : Int) (r : Reclaim) :
    (upBound cfg lo now r).ActiveSidePrice =
      if lo < r.ActiveSidePrice then max lo r.FixedSidePrice else r.ActiveSidePrice := by
  simp only [upBound]
  split_ifs <;> simp

/-- The current height after the up boundary block. -/
theorem upBound_height (cfg : Cfg) (lo : ℚ) (now : Int) (r : Reclaim) :
    (upBound cfg lo now r).CurrentHeight =
      if lo < r.ActiveSidePrice then
        fint ((max lo r.FixedSidePrice - r.FixedSidePrice) / cfg.tick)
      else r.CurrentHeight := by
  simp only [upBound]
  split_ifs <;> simp

/-- The deleted flag after the up reclaimed check. -/
theorem upDelete_deleted (lo : ℚ) (r : Reclaim) :
    ((upDelete lo r).Deleted = true ↔
      (r.Deleted = true ∨ lo ≤ r.FixedSidePrice ∨
        r.ActiveSidePrice ≤ r.FixedSidePrice)) := by
  unfold upDelete
  split_ifs with h <;> simp <;> tauto

/-- The active side after the down boundary block. -/
theorem downBound_active (cfg : Cfg) (hi : ℚ) (now : Int) (r : Reclaim) :
    (downBound cfg hi now r).ActiveSidePrice =
      if hi > r.ActiveSidePrice then min hi r.FixedSidePrice else r.ActiveSidePrice := by
  simp only [downBound]
  split_ifs <;> simp

/-- The current height after the down boundary block. -/
theorem downBound_height (cfg : Cfg) (hi : ℚ) (now : Int) (r : Reclaim) :
    (downBound cfg hi now r).CurrentHeight =
      if hi > r.ActiveSidePrice then
        fint ((r.FixedSidePrice - min hi r.FixedSidePrice) / cfg.tick)
      else r.CurrentHeight := by
  simp only [downBound]
  split_ifs <;> simp

/-- The deleted flag after the down reclaimed check. -/
theorem downDelete_deleted (hi : ℚ) (r : Reclaim) :
    ((downDelete hi r).Deleted = true ↔
      (r.Deleted = true ∨ hi ≥ r.FixedSidePrice ∨
        r.ActiveSidePrice ≥ r.FixedSidePrice)) := by
  unfold downDelete
  split_ifs with h <;> simp <;> tauto

/-! ### Composed characterizations of the retired-zone updates -/

/-- The whole retired-zone up update never touches the fixed side. -/
theorem upRetired_fixed (cfg : Cfg) (cp : Bool) (hi lo : ℚ) (now : Int) (r : Reclaim) :
    (updateUpRetired cfg cp hi lo now r).FixedSidePrice = r.FixedSidePrice := by
  simp [updateUpRetired]

/-- The active side after the whole retired-zone up update: the scoring
blocks leave it alone, the boundary block clamps it at the fixed side. -/
theorem upRetired_active (cfg : Cfg) (cp : Bool) (hi lo : ℚ) (now : Int) (r : Reclaim) :
    (updateUpRetired cfg cp hi lo now r).ActiveSidePrice =
      if lo < r.ActiveSidePrice then max lo r.FixedSidePrice else r.ActiveSidePrice := by
  simp [updateUpRetired, upBound_active]

/-- The deleted flag after the whole retired-zone up update. -/
theorem upRetired_deleted (cfg : Cfg) (cp : Bool) (hi lo : ℚ) (now : Int) (r : Reclaim) :
    ((updateUpRetired cfg cp hi lo now r).Deleted = true ↔
      (r.Deleted = true ∨ lo ≤ r.FixedSidePrice ∨
        (if lo < r.ActiveSidePrice then max lo r.FixedSidePrice else r.ActiveSidePrice) ≤
          r.FixedSidePrice)) := by
  simp [updateUpRetired, upDelete_deleted, upBound_active]

/-- The whole retired-zone down update never touches the fixed side. -/
theorem downRetired_fixed (cfg : Cfg) (cp : Bool) (hi lo : ℚ) (now : Int) (r : Reclaim) :
    (updateDownRetired cfg cp hi lo now r).FixedSidePrice = r.FixedSidePrice := by
  simp [updateDownRetired]

/-- The active side after the whole retired-zone down update. -/
theorem downRetired_active (cfg : Cfg) (cp : Bool) (hi lo : ℚ) (now : Int) (r : Reclaim) :
    (updateDownRetired cfg cp hi lo now r).ActiveSidePrice =
      if hi > r.ActiveSidePrice then min hi r.FixedSidePrice else r.ActiveSidePrice := by
  simp [updateDownRetired, downBound_active]

/-- The deleted flag after the whole retired-zone down update. -/
theorem downRetired_deleted (cfg : Cfg) (cp : Bool) (hi lo : ℚ) (now : Int) (r : Reclaim) :
    ((updateDownRetired cfg cp hi lo now r).Deleted = true ↔
      (r.Deleted = true ∨ r.FixedSidePrice ≤ hi ∨
        r.FixedSidePrice ≤
          (if hi > r.ActiveSidePrice then min hi r.FixedSidePrice else r.ActiveSidePrice))) := by
  simp [updateDownRetired, downDelete_deleted, downBound_active]

/-! ### C4 -/

/-- C4: for every retired zone (index ≥ 1) and every update pass,
`active_side_price` never moves away from `fixed_side_price`: for a
bullish zone the new value lies between `fixed_side_price` and the old
active side (clamped so it cannot cross the fixed side, and the fixed
side itself is untouched), and symmetrically for a bearish zone. -/
theorem C4_boundary_monotonic (cfg : Cfg) (cp : Bool) (hiU loU hiD loD : ℚ)
    (nowU nowD : Int) (zu zd : Reclaim)
    (hu : zu.FixedSidePrice ≤ zu.ActiveSidePrice) (hud : zu.Deleted = false)
    (hd : zd.ActiveSidePrice ≤ zd.FixedSidePrice) (hdd : zd.Deleted = false) :
    ((updateUpRetired cfg cp hiU loU nowU zu).FixedSidePrice = zu.FixedSidePrice ∧
     zu.FixedSidePrice ≤ (updateUpRetired cfg cp hiU loU nowU zu).ActiveSidePrice ∧
     (updateUpRetired cfg cp hiU loU nowU zu).ActiveSidePrice ≤ zu.ActiveSidePrice) ∧
    ((updateDownRetired cfg cp hiD loD nowD zd).FixedSidePrice = zd.FixedSidePrice ∧
     (updateDownRetired cfg cp hiD loD nowD zd).ActiveSidePrice ≤ zd.FixedSidePrice ∧
     zd.ActiveSidePrice ≤ (updateDownRetired cfg cp hiD loD nowD zd).ActiveSidePrice) := by
  refine ⟨⟨upRetired_fixed cfg cp hiU loU nowU zu, ?_, ?_⟩,
          ⟨downRetired_fixed cfg cp hiD loD nowD zd, ?_, ?_⟩⟩
  · rw [upRetired_active]
    split_ifs with h
    · exact le_max_right loU zu.FixedSidePrice
    · exact hu
  · rw [upRetired_active]
    split_ifs with h
    · exact max_le (le_of_lt h) hu
    · exact le_refl _
  · rw [downRetired_active]
    split_ifs with h
    · exact min_le_right hiD zd.FixedSidePrice
    · exact hd
  · rw [downRetired_active]
    split_ifs with h
    · exact le_min (le_of_lt h) hd
    · exact le_refl _

/-- A sample configuration used by concrete witnesses:
tick 0.25, threshold 2, minimum size 2, opposite-color filter on,
EV pullback 3, swing pullback 12 (the study defaults except the
threshold). -/
def cfgS : Cfg :=
  { tick := 1/4, NewReclaimThreshold := 2, MinReclaimSize := 2,
    LookForOppositeBarColor := true, EVPullbackSize := 3, SwingPullbackSize := 12 }

/-- A sample retired bullish zone spanning 99-100. -/
def zUp : Reclaim :=
  { FixedSidePrice := 99, ActiveSidePrice := 100, EV := 0,
    IncreaseEVOnNextTouch := false, Swing := 0, IncreaseSwingOnNextTouch := false,
    MaxHeight := 4, CurrentHeight := 4, MaxRetracement := 0, StartDate := 0,
    RectLineNumber := 0, EVTextLineNumber := -1, Deleted := false, RType := 0,
    DecayStartTime := 0 }

/-- A sample retired bearish zone spanning 100-101. -/
def zDown : Reclaim :=
  { FixedSidePrice := 101, ActiveSidePrice := 100, EV := 0,
    IncreaseEVOnNextTouch := false, Swing := 0, IncreaseSwingOnNextTouch := false,
    MaxHeight := 4, CurrentHeight := 4, MaxRetracement := 0, StartDate := 0,
    RectLineNumber := 0, EVTextLineNumber := -1, Deleted := false, RType := 1,
    DecayStartTime := 0 }

/-- Closed witness for C4 at a concrete retired pair of zones. -/
theorem C4_boundary_monotonic_witness :
    ((updateUpRetired cfgS true 101 (199/2) 0 zUp).FixedSidePrice = zUp.FixedSidePrice ∧
     zUp.FixedSidePrice ≤ (updateUpRetired cfgS true 101 (199/2) 0 zUp).ActiveSidePrice ∧
     (updateUpRetired cfgS true 101 (199/2) 0 zUp).ActiveSidePrice ≤ zUp.ActiveSidePrice) ∧
    ((updateDownRetired cfgS true (201/2) 99 0 zDown).FixedSidePrice = zDown.FixedSidePrice ∧
     (updateDownRetired cfgS true (201/2) 99 0 zDown).ActiveSidePrice ≤ zDown.FixedSidePrice ∧
     zDown.ActiveSidePrice ≤ (updateDownRetired cfgS true (201/2) 99 0 zDown).ActiveSidePrice) :=
  C4_boundary_monotonic cfgS true 101 (199/2) (201/2) 99 0 0 zUp zDown
    (by norm_num [zUp]) rfl (by norm_num [zDown]) rfl

/-! ### C2 -/

/-- C2: a retired zone (index ≥ 1) transitions to `deleted = true` on
an update pass if and only if the tracked extreme reached or crossed
its fixed side (bullish: the low is ≤ `FixedSidePrice`; bearish: the
high is ≥ `FixedSidePrice`) or its active side has collapsed onto the
fixed side. -/
theorem C2_closure_iff (cfg : Cfg) (cp : Bool) (hiU loU hiD loD : ℚ)
    (nowU nowD : Int) (zu zd : Reclaim)
    (hu : zu.FixedSidePrice ≤ zu.ActiveSidePrice) (hud : zu.Deleted = false)
    (hd : zd.ActiveSidePrice ≤ zd.FixedSidePrice) (hdd : zd.Deleted = false) :
    ((updateUpRetired cfg cp hiU loU nowU zu).Deleted = true ↔
      (loU ≤ zu.FixedSidePrice ∨
        (updateUpRetired cfg cp hiU loU nowU zu).ActiveSidePrice = zu.FixedSidePrice)) ∧
    ((updateDownRetired cfg cp hiD loD nowD zd).Deleted = true ↔
      (zd.FixedSidePrice ≤ hiD ∨
        (updateDownRetired cfg cp hiD loD nowD zd).ActiveSidePrice = zd.FixedSidePrice)) := by
  constructor
  · rw [upRetired_deleted, upRetired_active, hud]
    have hX : zu.FixedSidePrice ≤
        (if loU < zu.ActiveSidePrice then max loU zu.FixedSidePrice
         else zu.ActiveSidePrice) := by
      split_ifs with h
      · exact le_max_right _ _
      · exact hu
    constructor
    · rintro (hfalse | hle | hle2)
      · exact absurd hfalse (by simp)
      · exact Or.inl hle
      · exact Or.inr (le_antisymm hle2 hX)
    · rintro (hle | heq)
      · exact Or.inr (Or.inl hle)
      · exact Or.inr (Or.inr (le_of_eq heq))
  · rw [downRetired_deleted, downRetired_active, hdd]
    have hX : (if hiD > zd.ActiveSidePrice then min hiD zd.FixedSidePrice
         else zd.ActiveSidePrice) ≤ zd.FixedSidePrice := by
      split_ifs with h
      · exact min_le_right _ _
      · exact hd
    constructor
    · rintro (hfalse | hle | hle2)
      · exact absurd hfalse (by simp)
      · exact Or.inl hle
      · exact Or.inr (le_antisymm hX hle2)
    · rintro (hle | heq)
      · exact Or.inr (Or.inl hle)
      · exact Or.inr (Or.inr (ge_of_eq heq))

/-- Closed witness for C2: the up zone is reclaimed by a bar whose low
crosses its fixed side, the down zone survives a bar strictly inside
it. -/
theorem C2_closure_iff_witness :
    ((updateUpRetired cfgS true 101 (197/2) 0 zUp).Deleted = true ↔
      ((197/2 : ℚ) ≤ zUp.FixedSidePrice ∨
        (updateUpRetired cfgS true 101 (197/2) 0 zUp).ActiveSidePrice = zUp.FixedSidePrice)) ∧
    ((updateDownRetired cfgS true (201/2) 99 0 zDown).Deleted = true ↔
      (zDown.FixedSidePrice ≤ (201/2 : ℚ) ∨
        (updateDownRetired cfgS true (201/2) 99 0 zDown).ActiveSidePrice = zDown.FixedSidePrice)) :=
  C2_closure_iff cfgS true 101 (197/2) (201/2) 99 0 0 zUp zDown
    (by norm_num [zUp]) rfl (by norm_num [zDown]) rfl

/-! ### Live-zone (index 0) characterizations -/

theorem fint_zero : fint 0 = 0 := by norm_num [fint]

/-- Fixed side after the live up-zone branch: reset to the low iff the
low breached it. -/
theorem upZero_fixed (cfg : Cfg) (hi lo cl : ℚ) (bt : Int) (r : Reclaim) :
    (updateUpZero cfg hi lo cl bt r).FixedSidePrice =
      if lo ≤ r.FixedSidePrice then lo else r.FixedSidePrice := by
  simp only [updateUpZero]
  split_ifs <;> simp_all

/-- Active side after the live up-zone branch: the low on a reset,
otherwise the tracked high. -/
theorem upZero_active (cfg : Cfg) (hi lo cl : ℚ) (bt : Int) (r : Reclaim) :
    (updateUpZero cfg hi lo cl bt r).ActiveSidePrice =
      if lo ≤ r.FixedSidePrice then lo else hi := by
  simp only [updateUpZero]
  split_ifs <;> simp_all

/-- Fixed side after the live down-zone branch. -/
theorem downZero_fixed (cfg : Cfg) (hi lo cl : ℚ) (bt : Int) (r : Reclaim) :
    (updateDownZero cfg hi lo cl bt r).FixedSidePrice =
      if r.FixedSidePrice ≤ hi then hi else r.FixedSidePrice := by
  simp only [updateDownZero]
  split_ifs <;> simp_all

/-- Active side after the live down-zone branch. -/
theorem downZero_active (cfg : Cfg) (hi lo cl : ℚ) (bt : Int) (r : Reclaim) :
    (updateDownZero cfg hi lo cl bt r).ActiveSidePrice =
      if r.FixedSidePrice ≤ hi then hi else lo := by
  simp only [updateDownZero]
  split_ifs <;> simp_all

/-! ### C8 -/

/-- C8: the side invariant — for a bullish zone
`active_side_price ≥ fixed_side_price`, for a bearish zone
`active_side_price ≤ fixed_side_price` — is established by head
initialization and by the index-0 update (including its reset-in-place,
given a well-formed bar `low ≤ high`), preserved by the clamped
retired-zone update, and re-established for the fresh head written by a
rotation. -/
theorem C8_side_invariant (cfg : Cfg) (cp : Bool)
    (ltpU ltpD pU pD hiU loU clU hiD loD clD : ℚ)
    (tU tD btU btD nowU nowD lnU lnD : Int) (z0u z0d zu zd : Reclaim)
    (hbarU : loU ≤ hiU) (hbarD : loD ≤ hiD)
    (hu : zu.FixedSidePrice ≤ zu.ActiveSidePrice)
    (hd : zd.ActiveSidePrice ≤ zd.FixedSidePrice) :
    ((initHead ltpU tU 0).FixedSidePrice ≤ (initHead ltpU tU 0).ActiveSidePrice ∧
     (updateUpZero cfg hiU loU clU btU z0u).FixedSidePrice ≤
       (updateUpZero cfg hiU loU clU btU z0u).ActiveSidePrice ∧
     (updateUpRetired cfg cp hiU loU nowU zu).FixedSidePrice ≤
       (updateUpRetired cfg cp hiU loU nowU zu).ActiveSidePrice ∧
     (resetHead pU btU lnU zu).FixedSidePrice ≤ (resetHead pU btU lnU zu).ActiveSidePrice) ∧
    ((initHead ltpD tD 1).ActiveSidePrice ≤ (initHead ltpD tD 1).FixedSidePrice ∧
     (updateDownZero cfg hiD loD clD btD z0d).ActiveSidePrice ≤
       (updateDownZero cfg hiD loD clD btD z0d).FixedSidePrice ∧
     (updateDownRetired cfg cp hiD loD nowD zd).ActiveSidePrice ≤
       (updateDownRetired cfg cp hiD loD nowD zd).FixedSidePrice ∧
     (resetHead pD btD lnD zd).ActiveSidePrice ≤ (resetHead pD btD lnD zd).FixedSidePrice) := by
  refine ⟨⟨le_of_eq (by simp [initHead]), ?_, ?_, le_of_eq (by simp [resetHead])⟩,
          ⟨le_of_eq (by simp [initHead]), ?_, ?_, le_of_eq (by simp [resetHead])⟩⟩
  · rw [upZero_fixed, upZero_active]
    split_ifs with h
    · exact le_refl _
    · exact le_trans (le_of_lt (not_le.mp h)) hbarU
  · rw [upRetired_fixed, upRetired_active]
    split_ifs with h
    · exact le_max_right _ _
    · exact hu
  · rw [downZero_fixed, downZero_active]
    split_ifs with h
    · exact le_refl _
    · exact le_trans hbarD (le_of_lt (not_le.mp h))
  · rw [downRetired_fixed, downRetired_active]
    split_ifs with h
    · exact min_le_right _ _
    · exact hd

/-- Closed witness for C8 at concrete inputs. -/
theorem C8_side_invariant_witness :
    ((initHead 100 0 0).FixedSidePrice ≤ (initHead 100 0 0).ActiveSidePrice ∧
     (updateUpZero cfgS (201/2) (401/4) 100 0 zUp).FixedSidePrice ≤
       (updateUpZero cfgS (201/2) (401/4) 100 0 zUp).ActiveSidePrice ∧
     (updateUpRetired cfgS true (201/2) (401/4) 0 zUp).FixedSidePrice ≤
       (updateUpRetired cfgS true (201/2) (401/4) 0 zUp).ActiveSidePrice ∧
     (resetHead 100 0 7 zUp).FixedSidePrice ≤ (resetHead 100 0 7 zUp).ActiveSidePrice) ∧
    ((initHead 100 0 1).ActiveSidePrice ≤ (initHead 100 0 1).FixedSidePrice ∧
     (updateDownZero cfgS (201/2) (199/2) 100 0 zDown).ActiveSidePrice ≤
       (updateDownZero cfgS (201/2) (199/2) 100 0 zDown).FixedSidePrice ∧
     (updateDownRetired cfgS true (201/2) (199/2) 0 zDown).ActiveSidePrice ≤
       (updateDownRetired cfgS true (201/2) (199/2) 0 zDown).FixedSidePrice ∧
     (resetHead 100 0 7 zDown).ActiveSidePrice ≤ (resetHead 100 0 7 zDown).FixedSidePrice) :=
  C8_side_invariant cfgS true 100 100 100 100 (201/2) (401/4) 100 (201/2) (199/2) 100
    0 0 0 0 0 0 7 7 zUp zDown zUp zDown
    (by norm_num) (by norm_num) (by norm_num [zUp]) (by norm_num [zDown])

/-! ### C9 -/

/-- The zone of the C9 arithmetic scenario: fixed side 100, maximum
height 4 ticks. -/
def zC9 : Reclaim :=
  { FixedSidePrice := 100, ActiveSidePrice := 100, EV := 0,
    IncreaseEVOnNextTouch := false, Swing := 0, IncreaseSwingOnNextTouch := false,
    MaxHeight := 4, CurrentHeight := 0, MaxRetracement := 0, StartDate := 0,
    RectLineNumber := 0, EVTextLineNumber := -1, Deleted := false, RType := 0,
    DecayStartTime := 0 }

/-- C9: heights and retracements are integer tick counts obtained by
truncating the price delta over the tick size toward zero: with fixed
side 100.00, a bar high (hence active side) of 100.50 and tick 0.25
the live-zone update computes `CurrentHeight = 2`, and with
`MaxHeight = 4` and close 100.00 it computes
`MaxRetracement = int((100.00 + 4*0.25 - 100.00)/0.25) = 4`. -/
theorem C9_tick_arithmetic :
    fint (((201/2 : ℚ) - 100) / (1/4)) = 2 ∧
    fint (((100 : ℚ) + ((4 : Int) : ℚ) * (1/4) - 100) / (1/4)) = 4 ∧
    (updateUpZero cfgS (201/2) (401/4) 100 0 zC9).CurrentHeight = 2 ∧
    (updateUpZero cfgS (201/2) (401/4) 100 0 zC9).MaxRetracement = 4 := by
  refine ⟨by norm_num [fint], by norm_num [fint], ?_, ?_⟩ <;>
    norm_num [updateUpZero, zC9, cfgS, fint]

/-! ### C10 -/

/-- C10: on a single bar-close pass over a retired, unarmed bullish
zone, one bar whose high is at least `EVPullbackSize` ticks above the
active side and whose low touches the active side both arms the EV
counter and counts the touch in the same pass: `ev` increases by one
and the arm flag ends the pass false; no later bar is needed. -/
theorem C10_same_pass_arm_touch (cfg : Cfg) (hi lo : ℚ) (now : Int) (z : Reclaim)
    (htick : 0 < cfg.tick) (hthr : 0 ≤ cfg.EVPullbackSize)
    (harm : z.IncreaseEVOnNextTouch = false)
    (hpull : z.ActiveSidePrice + (cfg.EVPullbackSize : ℚ) * cfg.tick ≤ hi)
    (htouch : lo ≤ z.ActiveSidePrice) :
    (updateUpRetired cfg true hi lo now z).EV = z.EV + 1 ∧
    (updateUpRetired cfg true hi lo now z).IncreaseEVOnNextTouch = false := by
  have hfint : cfg.EVPullbackSize ≤ fint ((hi - z.ActiveSidePrice) / cfg.tick) := by
    apply le_fint hthr
    rw [le_div_iff htick]
    linarith
  have h1 : upEVArm cfg true hi z = { z with IncreaseEVOnNextTouch := true } := by
    unfold upEVArm
    rw [if_pos ⟨rfl, harm, hfint⟩]
  have h2 : upEVTouch true lo { z with IncreaseEVOnNextTouch := true } =
      { z with EV := z.EV + 1, IncreaseEVOnNextTouch := false } := by
    unfold upEVTouch
    exact if_pos ⟨rfl, rfl, htouch⟩
  unfold updateUpRetired
  rw [h1, h2]
  simp

/-- Closed witness for C10: active side 100, tick 0.25, threshold 3,
bar high 100.75 and low 100. -/
theorem C10_same_pass_arm_touch_witness :
    (updateUpRetired cfgS true (403/4) 100 0 zUp).EV = zUp.EV + 1 ∧
    (updateUpRetired cfgS true (403/4) 100 0 zUp).IncreaseEVOnNextTouch = false :=
  C10_same_pass_arm_touch cfgS (403/4) 100 0 zUp (by norm_num [cfgS])
    (by norm_num [cfgS]) rfl (by norm_num [cfgS, zUp]) (by norm_num [zUp])

/-! ### C7 -/

/-- C7 counterexample: the claim's own scenario, evaluated on the code.
Retired bullish zone with active side 100.00 (fixed side 99.00), tick
0.25, `EVPullbackSize = 3`; the bar-close pass with bar high 99.00
(low 98.50) does NOT set `increase_ev_on_next_touch` — the code arms
only when the bar high is above the active side, and
`int((99-100)/0.25) = -4 < 3` — and the subsequent bar with low
99.50 ≤ 100.00 (high 100.00) leaves `ev` at 0, not 1. -/
theorem C7_counterexample :
    (updateUpRetired cfgS true 99 (197/2) 0 zUp).IncreaseEVOnNextTouch = false ∧
    (updateUpRetired cfgS true 100 (199/2) 0
      (updateUpRetired cfgS true 99 (197/2) 0 zUp)).EV = 0 := by
  constructor <;>
    · norm_num [updateUpRetired, upEVArm, upEVTouch, upSwingArm, upSwingTouch,
        upBound, upDelete, cfgS, zUp, fint, Int.ceil_neg]

/-- C7 amended: the pullback that arms the EV counter of a retired
bullish zone is measured upward from the active side (the zone lies
below price): with active side 100.00, tick 0.25 and
`EVPullbackSize = 3`, a bar with high 100.75 (3 ticks above, low
100.25) arms the flag without counting, and a subsequent bar whose low
is ≤ 100.00 increments `ev` by exactly 1 and disarms. -/
theorem C7_amended_pullback_direction :
    ((updateUpRetired cfgS true (403/4) (401/4) 0 zUp).IncreaseEVOnNextTouch = true ∧
     (updateUpRetired cfgS true (403/4) (401/4) 0 zUp).EV = 0) ∧
    ((updateUpRetired cfgS true 100 100 0
        (updateUpRetired cfgS true (403/4) (401/4) 0 zUp)).EV = 1 ∧
     (updateUpRetired cfgS true 100 100 0
        (updateUpRetired cfgS true (403/4) (401/4) 0 zUp)).IncreaseEVOnNextTouch = false) := by
  refine ⟨⟨?_, ?_⟩, ?_, ?_⟩ <;>
    norm_num [updateUpRetired, upEVArm, upEVTouch, upSwingArm, upSwingTouch,
      upBound, upDelete, cfgS, zUp, fint]

/-! ### C6 -/

/-- The current height after the whole retired-zone up update. -/
theorem upRetired_height (cfg : Cfg) (cp : Bool) (hi lo : ℚ) (now : Int) (r : Reclaim) :
    (updateUpRetired cfg cp hi lo now r).CurrentHeight =
      if lo < r.ActiveSidePrice then
        fint ((max lo r.FixedSidePrice - r.FixedSidePrice) / cfg.tick)
      else r.CurrentHeight := by
  simp [updateUpRetired, upBound_height]

/-- The current height after the whole retired-zone down update. -/
theorem downRetired_height (cfg : Cfg) (cp : Bool) (hi lo : ℚ) (now : Int) (r : Reclaim) :
    (updateDownRetired cfg cp hi lo now r).CurrentHeight =
      if hi > r.ActiveSidePrice then
        fint ((r.FixedSidePrice - min hi r.FixedSidePrice) / cfg.tick)
      else r.CurrentHeight := by
  simp [updateDownRetired, downBound_height]

/-- A deleted bullish zone (boundaries collapsed at 100). -/
def zDelUp : Reclaim :=
  { FixedSidePrice := 100, ActiveSidePrice := 100, EV := 0,
    IncreaseEVOnNextTouch := false, Swing := 0, IncreaseSwingOnNextTouch := false,
    MaxHeight := 4, CurrentHeight := 0, MaxRetracement := 2, StartDate := 0,
    RectLineNumber := 0, EVTextLineNumber := -1, Deleted := true, RType := 0,
    DecayStartTime := 0 }

/-- A deleted bearish zone (boundaries collapsed at 100). -/
def zDelDown : Reclaim :=
  { FixedSidePrice := 100, ActiveSidePrice := 100, EV := 0,
    IncreaseEVOnNextTouch := false, Swing := 0, IncreaseSwingOnNextTouch := false,
    MaxHeight := 4, CurrentHeight := 0, MaxRetracement := 2, StartDate := 0,
    RectLineNumber := 0, EVTextLineNumber := -1, Deleted := true, RType := 1,
    DecayStartTime := 0 }

/-- C6 counterexample: the update loops never test `Deleted`, so a
zone with `deleted = true` keeps being scored — a bar that pulls 4
ticks above the collapsed boundary and touches back increments its
`ev` field. -/
theorem C6_counterexample :
    zDelUp.Deleted = true ∧
    (updateUpRetired cfgS true 101 (399/4) 5 zDelUp).EV ≠ zDelUp.EV := by
  constructor
  · rfl
  · norm_num [updateUpRetired, upEVArm, upEVTouch, upSwingArm, upSwingTouch,
      upBound, upDelete, cfgS, zDelUp, fint]

/-- C6 amended: once a retired zone is deleted (its active side has
collapsed onto the fixed side and its height is 0), later update
passes keep `deleted = true` and leave the boundaries, heights,
retracement and start time unchanged — but the zone is not skipped:
its `ev`/`swing` scorer fields, arm flags and `decay_start_time` may
still change until the zone is evicted by a rotation. -/
theorem C6_amended_frame (cfg : Cfg) (cp : Bool) (hiU loU hiD loD : ℚ)
    (nowU nowD : Int) (zu zd : Reclaim)
    (hud : zu.Deleted = true) (hcu : zu.ActiveSidePrice = zu.FixedSidePrice)
    (hhu : zu.CurrentHeight = 0)
    (hdd : zd.Deleted = true) (hcd : zd.ActiveSidePrice = zd.FixedSidePrice)
    (hhd : zd.CurrentHeight = 0) :
    ((updateUpRetired cfg cp hiU loU nowU zu).Deleted = true ∧
     (updateUpRetired cfg cp hiU loU nowU zu).FixedSidePrice = zu.FixedSidePrice ∧
     (updateUpRetired cfg cp hiU loU nowU zu).ActiveSidePrice = zu.ActiveSidePrice ∧
     (updateUpRetired cfg cp hiU loU nowU zu).CurrentHeight = zu.CurrentHeight ∧
     (updateUpRetired cfg cp hiU loU nowU zu).MaxHeight = zu.MaxHeight ∧
     (updateUpRetired cfg cp hiU loU nowU zu).MaxRetracement = zu.MaxRetracement ∧
     (updateUpRetired cfg cp hiU loU nowU zu).StartDate = zu.StartDate) ∧
    ((updateDownRetired cfg cp hiD loD nowD zd).Deleted = true ∧
     (updateDownRetired cfg cp hiD loD nowD zd).FixedSidePrice = zd.FixedSidePrice ∧
     (updateDownRetired cfg cp hiD loD nowD zd).ActiveSidePrice = zd.ActiveSidePrice ∧
     (updateDownRetired cfg cp hiD loD nowD zd).CurrentHeight = zd.CurrentHeight ∧
     (updateDownRetired cfg cp hiD loD nowD zd).MaxHeight = zd.MaxHeight ∧
     (updateDownRetired cfg cp hiD loD nowD zd).MaxRetracement = zd.MaxRetracement ∧
     (updateDownRetired cfg cp hiD loD nowD zd).StartDate = zd.StartDate) := by
  refine ⟨⟨(upRetired_deleted cfg cp hiU loU nowU zu).mpr (Or.inl hud),
           upRetired_fixed cfg cp hiU loU nowU zu, ?_, ?_,
           by simp [updateUpRetired], by simp [updateUpRetired],
           by simp [updateUpRetired]⟩,
          ⟨(downRetired_deleted cfg cp hiD loD nowD zd).mpr (Or.inl hdd),
           downRetired_fixed cfg cp hiD loD nowD zd, ?_, ?_,
           by simp [updateDownRetired], by simp [updateDownRetired],
           by simp [updateDownRetired]⟩⟩
  · rw [upRetired_active]
    split_ifs with h
    · rw [max_eq_right (le_of_lt (hcu ▸ h)), hcu]
    · rfl
  · rw [upRetired_height, hhu]
    split_ifs with h
    · rw [max_eq_right (le_of_lt (hcu ▸ h)), sub_self, zero_div, fint_zero]
    · rfl
  · rw [downRetired_active]
    split_ifs with h
    · rw [min_eq_right (le_of_lt (hcd ▸ h)), hcd]
    · rfl
  · rw [downRetired_height, hhd]
    split_ifs with h
    · rw [min_eq_right (le_of_lt (hcd ▸ h)), sub_self, zero_div, fint_zero]
    · rfl

/-- Closed witness for the amended C6 at the concrete deleted zones. -/
theorem C6_amended_frame_witness :
    ((updateUpRetired cfgS true 101 (399/4) 5 zDelUp).Deleted = true ∧
     (updateUpRetired cfgS true 101 (399/4) 5 zDelUp).FixedSidePrice = zDelUp.FixedSidePrice ∧
     (updateUpRetired cfgS true 101 (399/4) 5 zDelUp).ActiveSidePrice = zDelUp.ActiveSidePrice ∧
     (updateUpRetired cfgS true 101 (399/4) 5 zDelUp).CurrentHeight = zDelUp.CurrentHeight ∧
     (updateUpRetired cfgS true 101 (399/4) 5 zDelUp).MaxHeight = zDelUp.MaxHeight ∧
     (updateUpRetired cfgS true 101 (399/4) 5 zDelUp).MaxRetracement = zDelUp.MaxRetracement ∧
     (updateUpRetired cfgS true 101 (399/4) 5 zDelUp).StartDate = zDelUp.StartDate) ∧
    ((updateDownRetired cfgS true (401/4) 99 5 zDelDown).Deleted = true ∧
     (updateDownRetired cfgS true (401/4) 99 5 zDelDown).FixedSidePrice = zDelDown.FixedSidePrice ∧
     (updateDownRetired cfgS true (401/4) 99 5 zDelDown).ActiveSidePrice = zDelDown.ActiveSidePrice ∧
     (updateDownRetired cfgS true (401/4) 99 5 zDelDown).CurrentHeight = zDelDown.CurrentHeight ∧
     (updateDownRetired cfgS true (401/4) 99 5 zDelDown).MaxHeight = zDelDown.MaxHeight ∧
     (updateDownRetired cfgS true (401/4) 99 5 zDelDown).MaxRetracement = zDelDown.MaxRetracement ∧
     (updateDownRetired cfgS true (401/4) 99 5 zDelDown).StartDate = zDelDown.StartDate) :=
  C6_amended_frame cfgS true 101 (399/4) (401/4) 99 5 5 zDelUp zDelDown
    rfl rfl rfl rfl rfl rfl

/-! ### C3 -/

/-- The rotation keeps the history length (the array is fixed-size). -/
theorem rotate_length (p : ℚ) (bt ln : Int) (hist : List Reclaim) (hne : hist ≠ []) :
    (rotate p bt ln hist).length = hist.length := by
  have hpos : 0 < hist.length := List.length_pos.mpr hne
  simp [rotate]
  omega

/-- C3: after a rotation on a history of capacity `N`, every index
`i ∈ [1, N-1]` holds the zone previously at `i-1` (the whole retained
tail is exactly the old history without its last element, so the old
zone at `N-1` is evicted), and index 0 holds a fresh zone whose two
boundaries equal the current trade price with heights, retracement,
EV and swing counters zero, arm flags false and `deleted = false`. -/
theorem C3_rotation (p : ℚ) (bt ln : Int) (hist : List Reclaim) (hne : hist ≠ []) :
    (rotate p bt ln hist).length = hist.length ∧
    (rotate p bt ln hist).tail = hist.dropLast ∧
    (∀ i : Nat, 1 ≤ i → i < hist.length →
      (rotate p bt ln hist)[i]? = hist[i - 1]?) ∧
    ((rotate p bt ln hist).headD default).FixedSidePrice = p ∧
    ((rotate p bt ln hist).headD default).ActiveSidePrice = p ∧
    ((rotate p bt ln hist).headD default).CurrentHeight = 0 ∧
    ((rotate p bt ln hist).headD default).MaxHeight = 0 ∧
    ((rotate p bt ln hist).headD default).MaxRetracement = 0 ∧
    ((rotate p bt ln hist).headD default).EV = 0 ∧
    ((rotate p bt ln hist).headD default).Swing = 0 ∧
    ((rotate p bt ln hist).headD default).IncreaseEVOnNextTouch = false ∧
    ((rotate p bt ln hist).headD default).IncreaseSwingOnNextTouch = false ∧
    ((rotate p bt ln hist).headD default).Deleted = false := by
  refine ⟨rotate_length p bt ln hist hne, rfl, ?_, rfl, rfl, rfl, rfl, rfl, rfl,
    rfl, rfl, rfl, rfl⟩
  intro i h1 h2
  obtain ⟨j, rfl⟩ : ∃ j, i = j + 1 := ⟨i - 1, by omega⟩
  simp only [rotate, List.getElem?_cons_succ, Nat.add_sub_cancel]
  rw [List.dropLast_eq_take, List.getElem?_take]
  simp only [if_pos (by omega : j < hist.length - 1)]

/-- Closed witness for C3 on a concrete two-zone history. -/
theorem C3_rotation_witness :
    (rotate 100 3 9 [zUp, zDown]).length = [zUp, zDown].length ∧
    (rotate 100 3 9 [zUp, zDown]).tail = [zUp, zDown].dropLast ∧
    (∀ i : Nat, 1 ≤ i → i < [zUp, zDown].length →
      (rotate 100 3 9 [zUp, zDown])[i]? = [zUp, zDown][i - 1]?) ∧
    ((rotate 100 3 9 [zUp, zDown]).headD default).FixedSidePrice = 100 ∧
    ((rotate 100 3 9 [zUp, zDown]).headD default).ActiveSidePrice = 100 ∧
    ((rotate 100 3 9 [zUp, zDown]).headD default).CurrentHeight = 0 ∧
    ((rotate 100 3 9 [zUp, zDown]).headD default).MaxHeight = 0 ∧
    ((rotate 100 3 9 [zUp, zDown]).headD default).MaxRetracement = 0 ∧
    ((rotate 100 3 9 [zUp, zDown]).headD default).EV = 0 ∧
    ((rotate 100 3 9 [zUp, zDown]).headD default).Swing = 0 ∧
    ((rotate 100 3 9 [zUp, zDown]).headD default).IncreaseEVOnNextTouch = false ∧
    ((rotate 100 3 9 [zUp, zDown]).headD default).IncreaseSwingOnNextTouch = false ∧
    ((rotate 100 3 9 [zUp, zDown]).headD default).Deleted = false :=
  C3_rotation 100 3 9 [zUp, zDown] (by simp)

/-! ### C5 -/

/-- Configuration of the C5 scenario: tick 1, retracement threshold 1,
opposite-color filter off. -/
def cfgC5 : Cfg :=
  { tick := 1, NewReclaimThreshold := 1, MinReclaimSize := 2,
    LookForOppositeBarColor := false, EVPullbackSize := 3, SwingPullbackSize := 12 }

/-- Bars of the C5 scenario: the bar that just closed (index 9) ranges
101-105, the forming bar (index 10) closes at 100. -/
def barsC5 : Bars :=
  { op := fun _ => 0,
    hi := fun i => if i = 9 then 105 else 0,
    lo := fun i => if i = 9 then 101 else 0,
    cl := fun _ => 100 }

/-- C5 counterexample: on the concrete bar event the code does not
rotate (the head zone's `MaxRetracement` is still 0 when
`StartNewReclaimCheck` runs), yet the trigger predicate holds on the
state produced by that same bar's update pass — so the trigger is NOT
evaluated on zone state already updated with the bar's data, contrary
to the claimed processing order. -/
theorem C5_counterexample :
    (barStepUp cfgC5 barsC5 10 100 1 1 7 [initHead 100 0 0]).1 = false ∧
    startNewReclaimCheck cfgC5 barsC5 10
      ((barStepUp cfgC5 barsC5 10 100 1 1 7 [initHead 100 0 0]).2.headD default) = true := by
  constructor <;>
    norm_num [barStepUp, startNewReclaimCheck, findNonDoji, updateUpList,
      updateUpZero, rotate, resetHead, initHead, cfgC5, barsC5, fint, Sign]

/-- C5 amended: on a bar-close event the New-Zone Trigger is evaluated
FIRST, on the zone state left by the previous pass (the head as it is
before this bar's update), a rotation is performed if it fires, and
only then does the update pass run — with the closed bar's high/low
and the forming bar's close — over the (possibly rotated) history;
within that pass each retired zone's EV/swing scoring precedes its
boundary update. -/
theorem C5_amended_order (cfg : Cfg) (bars : Bars) (index : Int) (ltp : ℚ)
    (barTime now newLN : Int) (hist : List Reclaim) :
    (barStepUp cfg bars index ltp barTime now newLN hist).1 =
      startNewReclaimCheck cfg bars index (hist.headD default) ∧
    (barStepUp cfg bars index ltp barTime now newLN hist).2 =
      updateUpList cfg true (bars.hi (index - 1)) (bars.lo (index - 1)) (bars.cl index)
        barTime now
        (if startNewReclaimCheck cfg bars index (hist.headD default) = true then
          rotate ltp barTime newLN hist
        else hist) := by
  unfold barStepUp
  split_ifs with h
  · exact ⟨h.symm, rfl⟩
  · simp only [Bool.not_eq_true] at h
    exact ⟨h.symm, rfl⟩

/-! ### C1 -/

/-- A zero-range ("doji") bar: close equals open. -/
def isDoji (bars : Bars) (i : Int) : Prop := bars.cl i = bars.op i

/-- Direction sign of a bar. -/
def barDir (bars : Bars) (i : Int) : Int := Sign (bars.cl i - bars.op i)

/-- The bounded lookback window scanned by the trigger before the
closed bar `index - 1`: the three bars `index-2`, `index-3`,
`index-4`, newest first. -/
def lookbackWindow (index : Int) : List Int := [index - 2, index - 3, index - 4]

/-- The claimed trigger condition, stated in the spec's terms: the
index-0 zone's `MaxRetracement` is at least the threshold AND, when
the opposite-bar-color filter is enabled, the closed bar is not a
doji and either every bar of the lookback window is a doji (the
trigger then fires unconditionally) or the closed bar's direction
sign is opposite to that of the nearest preceding non-doji bar. -/
def newZoneTriggerSpec (cfg : Cfg) (bars : Bars) (index : Int) (r : Reclaim) : Prop :=
  cfg.NewReclaimThreshold ≤ r.MaxRetracement ∧
  (cfg.LookForOppositeBarColor = true →
    ¬ isDoji bars (index - 1) ∧
    ((∀ i ∈ lookbackWindow index, isDoji bars i) ∨
     ∃ j ∈ lookbackWindow index, ¬ isDoji bars j ∧
       (∀ k ∈ lookbackWindow index, j < k → isDoji bars k) ∧
       barDir bars (index - 1) = - barDir bars j))

theorem Sign_pos {a : ℚ} (h : 0 < a) : Sign a = 1 := by
  simp [Sign, h]

theorem Sign_neg {a : ℚ} (h : a < 0) : Sign a = -1 := by
  simp [Sign, h, not_lt.mpr (le_of_lt h), lt_asymm h]

theorem Sign_cases {a : ℚ} (ha : a ≠ 0) : Sign a = 1 ∨ Sign a = -1 := by
  rcases lt_trichotomy a 0 with h | h | h
  · exact Or.inr (Sign_neg h)
  · exact absurd h ha
  · exact Or.inl (Sign_pos h)

/-- For two non-doji bars, "different sign" and "opposite sign"
coincide. -/
theorem sign_opp_iff {a b : ℚ} (ha : a ≠ 0) (hb : b ≠ 0) :
    ¬ Sign a = Sign b ↔ Sign a = -Sign b := by
  rcases Sign_cases ha with h1 | h1 <;> rcases Sign_cases hb with h2 | h2 <;>
    rw [h1, h2] <;> norm_num

theorem isDoji_iff_sub (bars : Bars) (i : Int) :
    isDoji bars i ↔ bars.cl i - bars.op i = 0 :=
  ⟨fun h => sub_eq_zero.mpr h, fun h => sub_eq_zero.mp h⟩

/-- C1: for a bar-close event with the five bars the scan reads
available (`index ≥ 5`), `StartNewReclaimCheck` on the index-0 zone
returns true if and only if the claimed trigger condition holds:
`MaxRetracement` is at least `NewReclaimThreshold` and, when the
opposite-bar-color filter is enabled, the closed bar is not a doji and
either no non-doji bar exists in the bounded lookback window (the
trigger then fires unconditionally) or the closed bar's direction sign
is opposite to that of the nearest preceding non-doji bar. -/
theorem C1_trigger_iff (cfg : Cfg) (bars : Bars) (index : Int) (r : Reclaim)
    (h5 : 5 ≤ index) :
    startNewReclaimCheck cfg bars index r = true ↔
      newZoneTriggerSpec cfg bars index r := by
  have hw2 : ¬ (index - 2 = 0) := by omega
  have hw3 : ¬ (index - 3 = 0) := by omega
  have hw4 : ¬ (index - 4 = 0) := by omega
  simp only [startNewReclaimCheck, newZoneTriggerSpec]
  by_cases hmr : r.MaxRetracement < cfg.NewReclaimThreshold
  · rw [if_pos hmr]
    constructor
    · intro h
      simp at h
    · rintro ⟨hth, -⟩
      exact absurd hth (not_le.mpr hmr)
  · rw [if_neg hmr]
    have hth : cfg.NewReclaimThreshold ≤ r.MaxRetracement := not_lt.mp hmr
    by_cases hf : cfg.LookForOppositeBarColor = true
    · rw [if_pos hf]
      by_cases hd1 : bars.cl (index - 1) = bars.op (index - 1)
      · rw [if_pos hd1]
        constructor
        · intro h
          simp at h
        · rintro ⟨-, himp⟩
          exact absurd hd1 ((himp hf).1)
      · rw [if_neg hd1]
        have a1 : bars.cl (index - 1) - bars.op (index - 1) ≠ 0 := sub_ne_zero.mpr hd1
        by_cases hD2 : bars.cl (index - 2) - bars.op (index - 2) = 0
        · by_cases hD3 : bars.cl (index - 3) - bars.op (index - 3) = 0
          · by_cases hD4 : bars.cl (index - 4) - bars.op (index - 4) = 0
            · -- every window bar is a doji: sentinel 0, unconditional fire
              rw [show findNonDoji bars index = 0 by
                    simp [findNonDoji, hD2, hD3, hD4]]
              rw [if_pos rfl]
              simp only [true_iff]
              refine ⟨hth, fun _ => ⟨hd1, Or.inl ?_⟩⟩
              intro i hi
              simp only [lookbackWindow, List.mem_cons, List.mem_singleton,
                List.not_mem_nil, or_false] at hi
              rcases hi with rfl | rfl | rfl
              · exact (isDoji_iff_sub bars _).mpr hD2
              · exact (isDoji_iff_sub bars _).mpr hD3
              · exact (isDoji_iff_sub bars _).mpr hD4
            · -- nearest non-doji bar is index-4
              rw [show findNonDoji bars index = index - 4 by
                    simp [findNonDoji, hD2, hD3, hD4]]
              rw [if_neg hw4]
              constructor
              · intro h
                rcases em (Sign (bars.cl (index - 1) - bars.op (index - 1)) =
                    Sign (bars.cl (index - 4) - bars.op (index - 4))) with hsgn | hsgn
                · rw [if_pos hsgn] at h
                  simp at h
                · refine ⟨hth, fun _ => ⟨hd1, Or.inr ⟨index - 4, ?_, ?_, ?_, ?_⟩⟩⟩
                  · simp [lookbackWindow]
                  · exact fun hdj => hD4 ((isDoji_iff_sub bars _).mp hdj)
                  · intro k hk hlt
                    simp only [lookbackWindow, List.mem_cons, List.mem_singleton,
                      List.not_mem_nil, or_false] at hk
                    rcases hk with rfl | rfl | rfl
                    · exact (isDoji_iff_sub bars _).mpr hD2
                    · exact (isDoji_iff_sub bars _).mpr hD3
                    · omega
                  · simpa only [barDir] using (sign_opp_iff a1 hD4).mp hsgn
              · rintro ⟨-, himp⟩
                obtain ⟨-, hor⟩ := himp hf
                rcases hor with hall | ⟨j, hjmem, hjnd, hnear, hsopp⟩
                · exact absurd ((isDoji_iff_sub bars _).mp
                    (hall (index - 4) (by simp [lookbackWindow]))) hD4
                · simp only [lookbackWindow, List.mem_cons, List.mem_singleton,
                    List.not_mem_nil, or_false] at hjmem
                  rcases hjmem with rfl | rfl | rfl
                  · exact absurd ((isDoji_iff_sub bars _).mpr hD2) hjnd
                  · exact absurd ((isDoji_iff_sub bars _).mpr hD3) hjnd
                  · rw [if_neg ((sign_opp_iff a1 hD4).mpr
                      (by simpa only [barDir] using hsopp))]
          · -- nearest non-doji bar is index-3
            rw [show findNonDoji bars index = index - 3 by
                  simp [findNonDoji, hD2, hD3]]
            rw [if_neg hw3]
            constructor
            · intro h
              rcases em (Sign (bars.cl (index - 1) - bars.op (index - 1)) =
                  Sign (bars.cl (index - 3) - bars.op (index - 3))) with hsgn | hsgn
              · rw [if_pos hsgn] at h
                simp at h
              · refine ⟨hth, fun _ => ⟨hd1, Or.inr ⟨index - 3, ?_, ?_, ?_, ?_⟩⟩⟩
                · simp [lookbackWindow]
                · exact fun hdj => hD3 ((isDoji_iff_sub bars _).mp hdj)
                · intro k hk hlt
                  simp only [lookbackWindow, List.mem_cons, List.mem_singleton,
                    List.not_mem_nil, or_false] at hk
                  rcases hk with rfl | rfl | rfl
                  · exact (isDoji_iff_sub bars _).mpr hD2
                  · omega
                  · omega
                · simpa only [barDir] using (sign_opp_iff a1 hD3).mp hsgn
            · rintro ⟨-, himp⟩
              obtain ⟨-, hor⟩ := himp hf
              rcases hor with hall | ⟨j, hjmem, hjnd, hnear, hsopp⟩
              · exact absurd ((isDoji_iff_sub bars _).mp
                  (hall (index - 3) (by simp [lookbackWindow]))) hD3
              · simp only [lookbackWindow, List.mem_cons, List.mem_singleton,
                  List.not_mem_nil, or_false] at hjmem
                rcases hjmem with rfl | rfl | rfl
                · exact absurd ((isDoji_iff_sub bars _).mpr hD2) hjnd
                · rw [if_neg ((sign_opp_iff a1 hD3).mpr
                    (by simpa only [barDir] using hsopp))]
                · exact absurd ((isDoji_iff_sub bars _).mp
                    (hnear (index - 3) (by simp [lookbackWindow]) (by omega))) hD3
        · -- nearest non-doji bar is index-2
          rw [show findNonDoji bars index = index - 2 by
                simp [findNonDoji, hD2]]
          rw [if_neg hw2]
          constructor
          · intro h
            rcases em (Sign (bars.cl (index - 1) - bars.op (index - 1)) =
                Sign (bars.cl (index - 2) - bars.op (index - 2))) with hsgn | hsgn
            · rw [if_pos hsgn] at h
              simp at h
            · refine ⟨hth, fun _ => ⟨hd1, Or.inr ⟨index - 2, ?_, ?_, ?_, ?_⟩⟩⟩
              · simp [lookbackWindow]
              · exact fun hdj => hD2 ((isDoji_iff_sub bars _).mp hdj)
              · intro k hk hlt
                simp only [lookbackWindow, List.mem_cons, List.mem_singleton,
                  List.not_mem_nil, or_false] at hk
                rcases hk with rfl | rfl | rfl
                · omega
                · omega
                · omega
              · simpa only [barDir] using (sign_opp_iff a1 hD2).mp hsgn
          · rintro ⟨-, himp⟩
            obtain ⟨-, hor⟩ := himp hf
            rcases hor with hall | ⟨j, hjmem, hjnd, hnear, hsopp⟩
            · exact absurd ((isDoji_iff_sub bars _).mp
                (hall (index - 2) (by simp [lookbackWindow]))) hD2
            · simp only [lookbackWindow, List.mem_cons, List.mem_singleton,
                List.not_mem_nil, or_false] at hjmem
              rcases hjmem with rfl | rfl | rfl
              · rw [if_neg ((sign_opp_iff a1 hD2).mpr
                  (by simpa only [barDir] using hsopp))]
              · exact absurd ((isDoji_iff_sub bars _).mp
                  (hnear (index - 2) (by simp [lookbackWindow]) (by omega))) hD2
              · exact absurd ((isDoji_iff_sub bars _).mp
                  (hnear (index - 2) (by simp [lookbackWindow]) (by omega))) hD2
    · rw [if_neg hf]
      simp only [true_iff]
      exact ⟨hth, fun hcontra => absurd hcontra hf⟩

/-- Bars of the C1 witness: at index 9 an up candle (open 100, close
101), at index 8 a down candle (open 100, close 99), every other bar a
doji at 100. -/
def barsC1 : Bars :=
  { op := fun _ => 100, hi := fun _ => 0, lo := fun _ => 0,
    cl := fun i => if i = 9 then 101 else if i = 8 then 99 else 100 }

/-- The C1 witness zone: the head zone with 5 ticks of retracement. -/
def zC1 : Reclaim :=
  { FixedSidePrice := 99, ActiveSidePrice := 100, EV := 0,
    IncreaseEVOnNextTouch := false, Swing := 0, IncreaseSwingOnNextTouch := false,
    MaxHeight := 8, CurrentHeight := 3, MaxRetracement := 5, StartDate := 0,
    RectLineNumber := 0, EVTextLineNumber := -1, Deleted := false, RType := 0,
    DecayStartTime := 0 }

/-- Closed witness for C1 at a concrete bar event. -/
theorem C1_trigger_iff_witness :
    ((5 : Int) ≤ 10) ∧
    (startNewReclaimCheck cfgS barsC1 10 zC1 = true ↔
      newZoneTriggerSpec cfgS barsC1 10 zC1) :=
  ⟨by norm_num, C1_trigger_iff cfgS barsC1 10 zC1 (by norm_num)⟩
